import Mathlib

/-!
# Verification of the telecom-cart-api recovery coordinator

Shallow embedding of `src/clients/salesforce-cart-client.ts` (the backend
context provider) and `src/services/cart-service.ts` (the session recovery
coordinator), together with proofs about the claims of the specification.

Strings from the source (session ids `sess_<uuid>`, context ids `ctx_<uuid>`,
item ids `item_<n>`, product ids, names) are modelled as natural numbers;
UUID freshness is modelled by counters.  Timestamps (`Date.now()`,
`expiresAt`) are integers (milliseconds).  JavaScript exceptions become
`Except` results; since mutations performed before a `throw` persist in TS,
every operation returns the (possibly updated) state alongside the
`Except`-result rather than discarding it on error.
-/

/-- Input for adding an item (`CartItemInput` in `types.ts`). -/
structure CartItemInput where
  productId : Nat
  name : Nat
  price : Nat
  quantity : Nat
deriving DecidableEq, Repr

/-- A cart item with a provider-assigned id (`CartItem` in `types.ts`). -/
structure CartItem where
  id : Nat
  productId : Nat
  name : Nat
  price : Nat
  quantity : Nat
deriving DecidableEq, Repr

/-- Cart identifiers: `cart_<sessionId>` as returned by `createCart`, versus
`cart_<contextId>` as returned by the provider's `buildCart`.  Session-id
strings (`sess_…`) and context-id strings (`ctx_…`) can never be equal, which
the two constructors capture. -/
inductive CartId where
  | ofSession (sessionId : Nat)
  | ofContext (contextId : Nat)
deriving DecidableEq, Repr

/-- A cart view `{ id, items, total }` (`Cart` in `types.ts`). -/
structure Cart where
  id : CartId
  items : List CartItem
  total : Nat
deriving DecidableEq, Repr

/-- Errors raised by a provider call: `ContextExpiredError` and
`ItemNotFoundError` from `errors.ts`, plus `providerFailure` standing for any
other `Error` an unavailable or mocked provider may throw. -/
inductive ClientError where
  | contextExpired (contextId : Nat)
  | itemNotFound (itemId : Nat)
  | providerFailure (code : Nat)
deriving DecidableEq, Repr

/-- Errors observable at the coordinator boundary: a propagated provider
error, `CartNotFoundError`, or `ContextRecoveryFailedError` carrying the
session id and the optional underlying cause. -/
inductive CartError where
  | client (e : ClientError)
  | cartNotFound (sessionId : Nat)
  | recoveryFailed (sessionId : Nat) (cause : Option ClientError)
deriving DecidableEq, Repr

/-! ## Association lists, modelling JavaScript `Map` -/

/-- `Map.get`: first entry with the given key. -/
def alistGet (l : List (Nat × α)) (k : Nat) : Option α :=
  (l.find? (fun p => p.1 == k)).map (·.2)

/-- `Map.set`: replace the entry in place when the key is present (keeping
insertion order), append otherwise. -/
def alistSet : List (Nat × α) → Nat → α → List (Nat × α)
  | [], k, v => [(k, v)]
  | p :: l, k, v => if p.1 == k then (k, v) :: l else p :: alistSet l k v

deriving instance DecidableEq for Except

/-! ## The backend context provider (`salesforce-cart-client.ts`) -/

/-- A Salesforce context `{ id, expiresAt }` (`CartContext` in `types.ts`). -/
structure SfContext where
  id : Nat
  expiresAt : Int
deriving DecidableEq, Repr

/-- Per-context record held by the client (`ContextData`). -/
structure ContextData where
  context : SfContext
  items : List CartItem
deriving DecidableEq, Repr

/-- The provider's mutable state: the context table plus the counters that
model `randomUUID()` freshness and `itemCounter`. -/
structure SfState where
  contexts : List (Nat × ContextData)
  nextContextId : Nat
  itemCounter : Nat
deriving DecidableEq, Repr

namespace SalesforceCartClient

/-- `CONTEXT_EXPIRY_MS = 30 * 60 * 1000`. -/
def CONTEXT_EXPIRY_MS : Int := 30 * 60 * 1000

/-- `cartTotal`: `items.reduce((sum, item) => sum + item.price * item.quantity, 0)`. -/
def cartTotal (items : List CartItem) : Nat :=
  items.foldl (fun sum it => sum + it.price * it.quantity) 0

/-- `buildCart`: cart id `cart_<contextId>`, a copy of the items, computed total. -/
def buildCart (d : ContextData) : Cart :=
  { id := .ofContext d.context.id
    items := d.items
    total := cartTotal d.items }

/-- `getValidContext`: `none` when the context is unknown or
`Date.now() > expiresAt` (the code's strict comparison). -/
def getValidContext (now : Int) (s : SfState) (contextId : Nat) : Option ContextData :=
  match alistGet s.contexts contextId with
  | none => none
  | some d => if now > d.context.expiresAt then none else some d

/-- `createContext`: fresh id, 30-minute horizon, empty item list; never fails. -/
def createContext (now : Int) (s : SfState) : Except ClientError SfContext × SfState :=
  let ctx : SfContext := { id := s.nextContextId, expiresAt := now + CONTEXT_EXPIRY_MS }
  (.ok ctx,
   { s with
      contexts := alistSet s.contexts ctx.id { context := ctx, items := [] }
      nextContextId := s.nextContextId + 1 })

/-- `addItem`: validate the context, append a freshly-numbered item, return the
full cart. -/
def addItem (now : Int) (contextId : Nat) (item : CartItemInput) (s : SfState) :
    Except ClientError Cart × SfState :=
  match getValidContext now s contextId with
  | none => (.error (.contextExpired contextId), s)
  | some d =>
      let cartItem : CartItem :=
        { id := s.itemCounter + 1
          productId := item.productId
          name := item.name
          price := item.price
          quantity := item.quantity }
      let d' := { d with items := d.items ++ [cartItem] }
      (.ok (buildCart d'),
       { s with
          contexts := alistSet s.contexts contextId d'
          itemCounter := s.itemCounter + 1 })

/-- `getCart`: validate the context, return the built cart. -/
def getCart (now : Int) (contextId : Nat) (s : SfState) :
    Except ClientError Cart × SfState :=
  match getValidContext now s contextId with
  | none => (.error (.contextExpired contextId), s)
  | some d => (.ok (buildCart d), s)

/-- `removeItem`: validate, then `findIndex`/`splice` — remove the first item
with the given id, or fail with `ItemNotFoundError`. -/
def removeItem (now : Int) (contextId : Nat) (itemId : Nat) (s : SfState) :
    Except ClientError Cart × SfState :=
  match getValidContext now s contextId with
  | none => (.error (.contextExpired contextId), s)
  | some d =>
      match d.items.find? (fun it => it.id == itemId) with
      | none => (.error (.itemNotFound itemId), s)
      | some _ =>
          let d' := { d with items := d.items.eraseP (fun it => it.id == itemId) }
          (.ok (buildCart d'), { s with contexts := alistSet s.contexts contextId d' })

/-- Mutate the first element satisfying `p` (TS `find` followed by in-place
mutation of the found object). -/
def updateFirst (p : α → Bool) (f : α → α) : List α → List α
  | [] => []
  | x :: xs => if p x then f x :: xs else x :: updateFirst p f xs

/-- `updateItem`: validate, find the item by id, set its quantity, return the
full cart. -/
def updateItem (now : Int) (contextId : Nat) (itemId : Nat) (quantity : Nat)
    (s : SfState) : Except ClientError Cart × SfState :=
  match getValidContext now s contextId with
  | none => (.error (.contextExpired contextId), s)
  | some d =>
      match d.items.find? (fun it => it.id == itemId) with
      | none => (.error (.itemNotFound itemId), s)
      | some _ =>
          let d' := { d with
            items := updateFirst (fun it => it.id == itemId)
              (fun it => { it with quantity := quantity }) d.items }
          (.ok (buildCart d'), { s with contexts := alistSet s.contexts contextId d' })

/-- Test helper `expireContext`: set the context's horizon to
`Date.now() - 1000` (the induced-expiry hook used by the tests and by the
specification's "induced context expiries"). -/
def expireContext (now : Int) (contextId : Nat) (s : SfState) : SfState :=
  match alistGet s.contexts contextId with
  | none => s
  | some d =>
      { s with
        contexts := alistSet s.contexts contextId
          { d with context := { d.context with expiresAt := now - 1000 } } }

end SalesforceCartClient

/-! ## The session recovery coordinator (`cart-service.ts`) -/

/-- The `ISalesforceCartClient` interface the service is constructed with.
`σ` is the client's private state; each call returns its result together with
the possibly-updated client state. -/
structure CartClient (σ : Type) where
  createContext : Int → σ → Except ClientError SfContext × σ
  getCart : Int → Nat → σ → Except ClientError Cart × σ
  addItem : Int → Nat → CartItemInput → σ → Except ClientError Cart × σ
  removeItem : Int → Nat → Nat → σ → Except ClientError Cart × σ
  updateItem : Int → Nat → Nat → Nat → σ → Except ClientError Cart × σ

/-- The real `SalesforceCartClient` packaged as a `CartClient`. -/
def sfClient : CartClient SfState :=
  { createContext := SalesforceCartClient.createContext
    getCart := SalesforceCartClient.getCart
    addItem := SalesforceCartClient.addItem
    removeItem := SalesforceCartClient.removeItem
    updateItem := SalesforceCartClient.updateItem }

/-- `SessionCart` from `types.ts`: the durable session record. -/
structure SessionCart where
  sessionId : Nat
  sfContextId : Nat
  items : List CartItem
  createdAt : Int
  lastAccessed : Int
deriving DecidableEq, Repr

/-- The coordinator's state: the injected client's state plus the session
table (`sessions : Map`) and the counter modelling `sess_<uuid>` freshness. -/
structure ServiceState (σ : Type) where
  client : σ
  sessions : List (Nat × SessionCart)
  nextSessionId : Nat
deriving DecidableEq, Repr

namespace CartService

variable {σ : Type}

/-- Store a session record under its own id (in TS the record in the map is
mutated through its reference). -/
def setSession (s : ServiceState σ) (sess : SessionCart) : ServiceState σ :=
  { s with sessions := alistSet s.sessions sess.sessionId sess }

/-- The `for … of session.items` replay loop in `recoverContext`:
`Provider.addItem` for every item, in order, against the new context. -/
def replayItems (C : CartClient σ) (now : Int) (contextId : Nat) :
    List CartItem → σ → Except ClientError Unit × σ
  | [], c => (.ok (), c)
  | item :: rest, c =>
      match C.addItem now contextId
          { productId := item.productId
            name := item.name
            price := item.price
            quantity := item.quantity } c with
      | (.ok _, c') => replayItems C now contextId rest c'
      | (.error e, c') => (.error e, c')

/-- `recoverContext`: create a new context, replay the session's items into
it, and only then rebind `sfContextId`.  Any error from step 1 or 2 is
wrapped into `ContextRecoveryFailedError` and the session is left untouched. -/
def recoverContext (C : CartClient σ) (now : Int) (session : SessionCart) (c : σ) :
    Except CartError SessionCart × σ :=
  match C.createContext now c with
  | (.error e, c') => (.error (.recoveryFailed session.sessionId (some e)), c')
  | (.ok newContext, c') =>
      match replayItems C now newContext.id session.items c' with
      | (.error e, c'') => (.error (.recoveryFailed session.sessionId (some e)), c'')
      | (.ok _, c'') => (.ok { session with sfContextId := newContext.id }, c'')

/-- `createCart`: allocate a session id, create a context, store the empty
session, return the id and an empty cart view `cart_<sessionId>`. -/
def createCart (C : CartClient σ) (now : Int) (s : ServiceState σ) :
    Except CartError (Nat × Cart) × ServiceState σ :=
  let sessionId := s.nextSessionId
  match C.createContext now s.client with
  | (.error e, c') => (.error (.client e), { s with client := c' })
  | (.ok sfContext, c') =>
      let session : SessionCart :=
        { sessionId := sessionId
          sfContextId := sfContext.id
          items := []
          createdAt := now
          lastAccessed := now }
      let cart : Cart := { id := .ofSession sessionId, items := [], total := 0 }
      (.ok (sessionId, cart),
       setSession { s with client := c', nextSessionId := s.nextSessionId + 1 } session)

/-- `getCart`: resolve the session, delegate, and on `ContextExpiredError`
recover once and retry.  Note: unlike the mutating operations, `getCart` does
NOT call `syncSessionItems`. -/
def getCart (C : CartClient σ) (now : Int) (sessionId : Nat) (s : ServiceState σ) :
    Except CartError Cart × ServiceState σ :=
  match alistGet s.sessions sessionId with
  | none => (.error (.cartNotFound sessionId), s)
  | some session0 =>
      let session := { session0 with lastAccessed := now }
      let s := setSession s session
      match C.getCart now session.sfContextId s.client with
      | (.ok cart, c') => (.ok cart, { s with client := c' })
      | (.error e, c') =>
          match e with
          | .contextExpired _ =>
              match recoverContext C now session c' with
              | (.error e', c'') => (.error e', { s with client := c'' })
              | (.ok session', c'') =>
                  let s := setSession { s with client := c'' } session'
                  match C.getCart now session'.sfContextId s.client with
                  | (.ok cart, c3) => (.ok cart, { s with client := c3 })
                  | (.error e2, c3) => (.error (.client e2), { s with client := c3 })
          | _ => (.error (.client e), { s with client := c' })

/-- `addItem`: delegate, sync `Session.items` on success; on expiry recover
once, retry, and sync. -/
def addItem (C : CartClient σ) (now : Int) (sessionId : Nat) (item : CartItemInput)
    (s : ServiceState σ) : Except CartError Cart × ServiceState σ :=
  match alistGet s.sessions sessionId with
  | none => (.error (.cartNotFound sessionId), s)
  | some session0 =>
      let session := { session0 with lastAccessed := now }
      let s := setSession s session
      match C.addItem now session.sfContextId item s.client with
      | (.ok cart, c') =>
          (.ok cart, setSession { s with client := c' } { session with items := cart.items })
      | (.error e, c') =>
          match e with
          | .contextExpired _ =>
              match recoverContext C now session c' with
              | (.error e', c'') => (.error e', { s with client := c'' })
              | (.ok session', c'') =>
                  let s := setSession { s with client := c'' } session'
                  match C.addItem now session'.sfContextId item s.client with
                  | (.ok cart, c3) =>
                      (.ok cart,
                       setSession { s with client := c3 } { session' with items := cart.items })
                  | (.error e2, c3) => (.error (.client e2), { s with client := c3 })
          | _ => (.error (.client e), { s with client := c' })

/-- `removeItem`: delegate, sync on success.  On expiry: recover, resolve the
stale item id against the authoritative `session.items` (rethrowing the
ORIGINAL caught error when absent), fetch the recovered cart, find the first
item with the matching productId (`ContextRecoveryFailedError` when absent),
remove it by its new id, and sync. -/
def removeItem (C : CartClient σ) (now : Int) (sessionId : Nat) (itemId : Nat)
    (s : ServiceState σ) : Except CartError Cart × ServiceState σ :=
  match alistGet s.sessions sessionId with
  | none => (.error (.cartNotFound sessionId), s)
  | some session0 =>
      let session := { session0 with lastAccessed := now }
      let s := setSession s session
      match C.removeItem now session.sfContextId itemId s.client with
      | (.ok cart, c') =>
          (.ok cart, setSession { s with client := c' } { session with items := cart.items })
      | (.error e, c') =>
          match e with
          | .contextExpired cid =>
              match recoverContext C now session c' with
              | (.error e', c'') => (.error e', { s with client := c'' })
              | (.ok session', c'') =>
                  let s := setSession { s with client := c'' } session'
                  match session'.items.find? (fun it => it.id == itemId) with
                  | none => (.error (.client (.contextExpired cid)), s)
                  | some itemToRemove =>
                      match C.getCart now session'.sfContextId s.client with
                      | (.error e2, c3) => (.error (.client e2), { s with client := c3 })
                      | (.ok recoveredCart, c3) =>
                          match recoveredCart.items.find?
                              (fun it => it.productId == itemToRemove.productId) with
                          | none =>
                              (.error (.recoveryFailed sessionId none), { s with client := c3 })
                          | some newItem =>
                              match C.removeItem now session'.sfContextId newItem.id c3 with
                              | (.ok cart, c4) =>
                                  (.ok cart,
                                   setSession { s with client := c4 }
                                     { session' with items := cart.items })
                              | (.error e3, c4) =>
                                  (.error (.client e3), { s with client := c4 })
          | _ => (.error (.client e), { s with client := c' })

/-- `updateItem`: same shape as `removeItem`, updating the quantity of the
remapped item. -/
def updateItem (C : CartClient σ) (now : Int) (sessionId : Nat) (itemId : Nat)
    (quantity : Nat) (s : ServiceState σ) : Except CartError Cart × ServiceState σ :=
  match alistGet s.sessions sessionId with
  | none => (.error (.cartNotFound sessionId), s)
  | some session0 =>
      let session := { session0 with lastAccessed := now }
      let s := setSession s session
      match C.updateItem now session.sfContextId itemId quantity s.client with
      | (.ok cart, c') =>
          (.ok cart, setSession { s with client := c' } { session with items := cart.items })
      | (.error e, c') =>
          match e with
          | .contextExpired cid =>
              match recoverContext C now session c' with
              | (.error e', c'') => (.error e', { s with client := c'' })
              | (.ok session', c'') =>
                  let s := setSession { s with client := c'' } session'
                  match session'.items.find? (fun it => it.id == itemId) with
                  | none => (.error (.client (.contextExpired cid)), s)
                  | some itemToUpdate =>
                      match C.getCart now session'.sfContextId s.client with
                      | (.error e2, c3) => (.error (.client e2), { s with client := c3 })
                      | (.ok recoveredCart, c3) =>
                          match recoveredCart.items.find?
                              (fun it => it.productId == itemToUpdate.productId) with
                          | none =>
                              (.error (.recoveryFailed sessionId none), { s with client := c3 })
                          | some newItem =>
                              match C.updateItem now session'.sfContextId newItem.id quantity c3 with
                              | (.ok cart, c4) =>
                                  (.ok cart,
                                   setSession { s with client := c4 }
                                     { session' with items := cart.items })
                              | (.error e3, c4) =>
                                  (.error (.client e3), { s with client := c4 })
          | _ => (.error (.client e), { s with client := c' })

end CartService

/-! ## Whole-system traces

A trace interleaves caller operations with induced context expiries (the
`expireContext` test hook, which is how both the tests and the spec's
"induced context expiries" force an expiry).  The whole run happens at one
instant `now`: contexts live 30 minutes, so no context expires naturally
within a trace, exactly matching the test setup. -/

abbrev SysState := ServiceState SfState

/-- Fresh service + fresh client, as built in the tests'`beforeEach`. -/
def initState : SysState :=
  { client := { contexts := [], nextContextId := 0, itemCounter := 0 }
    sessions := []
    nextSessionId := 0 }

/-- One step of a system trace. -/
inductive TraceOp where
  | createCart
  | getCart (sessionId : Nat)
  | addItem (sessionId : Nat) (item : CartItemInput)
  | removeItem (sessionId : Nat) (itemId : Nat)
  | updateItem (sessionId : Nat) (itemId : Nat) (quantity : Nat)
  | expire (sessionId : Nat)
deriving DecidableEq, Repr

/-- Caller operations produce `some` result; the induced expiry of a
session's current context produces none (it is not a caller operation). -/
def runOp (now : Int) (op : TraceOp) (s : SysState) :
    Option (Except CartError Cart) × SysState :=
  match op with
  | .createCart =>
      match CartService.createCart sfClient now s with
      | (.ok (_, cart), s') => (some (.ok cart), s')
      | (.error e, s') => (some (.error e), s')
  | .getCart sid =>
      match CartService.getCart sfClient now sid s with
      | (r, s') => (some r, s')
  | .addItem sid input =>
      match CartService.addItem sfClient now sid input s with
      | (r, s') => (some r, s')
  | .removeItem sid itemId =>
      match CartService.removeItem sfClient now sid itemId s with
      | (r, s') => (some r, s')
  | .updateItem sid itemId q =>
      match CartService.updateItem sfClient now sid itemId q s with
      | (r, s') => (some r, s')
  | .expire sid =>
      (none,
       match alistGet s.sessions sid with
       | none => s
       | some sess =>
           { s with client := SalesforceCartClient.expireContext now sess.sfContextId s.client })

/-- Final state of a trace. -/
def runTrace (now : Int) : List TraceOp → SysState → SysState
  | [], s => s
  | op :: ops, s => runTrace now ops (runOp now op s).2

/-! ### Caller-visible cart states -/

/-- The identity-free content of a cart item: everything except the
provider-assigned id. -/
structure ProjItem where
  productId : Nat
  name : Nat
  price : Nat
  quantity : Nat
deriving DecidableEq, Repr

def projItem (it : CartItem) : ProjItem :=
  { productId := it.productId, name := it.name, price := it.price, quantity := it.quantity }

def projItems (l : List CartItem) : List ProjItem := l.map projItem

def projInput (i : CartItemInput) : ProjItem :=
  { productId := i.productId, name := i.name, price := i.price, quantity := i.quantity }

/-- The caller-visible shape of a cart named by the invisibility property:
the (productId, quantity) sequence together with the total. -/
abbrev VisibleCart := List (Nat × Nat) × Nat

def visibleOfCart (cart : Cart) : VisibleCart :=
  (cart.items.map (fun it => (it.productId, it.quantity)), cart.total)

def visibleOf : Except CartError Cart → Except CartError VisibleCart :=
  Except.map visibleOfCart

/-- The sequence of caller-visible outcomes of a trace (expiry steps produce
no outcome). -/
def traceOut (now : Int) : List TraceOp → SysState → List (Except CartError VisibleCart)
  | [], _ => []
  | op :: ops, s =>
      match runOp now op s with
      | (none, s') => traceOut now ops s'
      | (some r, s') => visibleOf r :: traceOut now ops s'

/-- `true` for the operations whose arguments involve no provider-assigned
item id: `createCart`, `getCart`, `addItem` and induced expiries. -/
def TraceOp.simple : TraceOp → Bool
  | .removeItem _ _ => false
  | .updateItem _ _ _ => false
  | _ => true

/-- `true` for caller operations, `false` for induced expiries. -/
def TraceOp.isCaller : TraceOp → Bool
  | .expire _ => false
  | _ => true

/-! ### The expiry-free abstract cart machine

The idealised machine the invisibility property compares against: sessions
map directly to their authoritative identity-free item lists and nothing ever
expires. -/

def absTotal (l : List ProjItem) : Nat :=
  l.foldl (fun sum p => sum + p.price * p.quantity) 0

def absView (l : List ProjItem) : VisibleCart :=
  (l.map (fun p => (p.productId, p.quantity)), absTotal l)

structure AbsState where
  sessions : List (Nat × List ProjItem)
  nextSessionId : Nat
deriving DecidableEq, Repr

def absInit : AbsState := { sessions := [], nextSessionId := 0 }

/-- Abstract step: `expire` is a no-op without output; `removeItem` and
`updateItem` are outside the simple fragment and also produce nothing. -/
def absRunOp (op : TraceOp) (a : AbsState) : Option (Except CartError VisibleCart) × AbsState :=
  match op with
  | .createCart =>
      (some (.ok ([], 0)),
       { sessions := alistSet a.sessions a.nextSessionId []
         nextSessionId := a.nextSessionId + 1 })
  | .getCart sid =>
      match alistGet a.sessions sid with
      | none => (some (.error (.cartNotFound sid)), a)
      | some items => (some (.ok (absView items)), a)
  | .addItem sid input =>
      match alistGet a.sessions sid with
      | none => (some (.error (.cartNotFound sid)), a)
      | some items =>
          let items' := items ++ [projInput input]
          (some (.ok (absView items')), { a with sessions := alistSet a.sessions sid items' })
  | _ => (none, a)

def absTraceOut : List TraceOp → AbsState → List (Except CartError VisibleCart)
  | [], _ => []
  | op :: ops, a =>
      match absRunOp op a with
      | (none, a') => absTraceOut ops a'
      | (some r, a') => r :: absTraceOut ops a'

/-- The item the provider's `addItem` constructs from `input` when the item
counter currently reads `counter`. -/
def newCartItem (counter : Nat) (input : CartItemInput) : CartItem :=
  { id := counter + 1
    productId := input.productId
    name := input.name
    price := input.price
    quantity := input.quantity }

/-- The consecutive ids `start, start+1, …` handed out by the item counter. -/
def idRange (start : Nat) : Nat → List Nat
  | 0 => []
  | n + 1 => start :: idRange (start + 1) n

/-- The session a trace operation's visible cart answers for: the operation's
own session id, or the freshly allocated one for `createCart`. -/
def opSessionId (op : TraceOp) (s : SysState) : Nat :=
  match op with
  | .createCart => s.nextSessionId
  | .getCart sid => sid
  | .addItem sid _ => sid
  | .removeItem sid _ => sid
  | .updateItem sid _ _ => sid
  | .expire sid => sid

/-- Invariant of every reachable coordinator state (with the real provider):
sessions are stored under their own id, context records carry their own key,
every session's VALID context mirrors the session's authoritative items up to
identity, current context ids are below the provider's freshness counter, and
no two sessions share a context. -/
structure RunInv (now : Int) (s : SysState) : Prop where
  sid_eq : ∀ sid sess, alistGet s.sessions sid = some sess → sess.sessionId = sid
  ctx_id : ∀ cid d, alistGet s.client.contexts cid = some d → d.context.id = cid
  ctx : ∀ sid sess d, alistGet s.sessions sid = some sess →
      alistGet s.client.contexts sess.sfContextId = some d →
      ¬ now > d.context.expiresAt → projItems d.items = projItems sess.items
  fresh : ∀ sid sess, alistGet s.sessions sid = some sess →
      sess.sfContextId < s.client.nextContextId
  distinct : ∀ sid₁ sid₂ sess₁ sess₂, alistGet s.sessions sid₁ = some sess₁ →
      alistGet s.sessions sid₂ = some sess₂ →
      sess₁.sfContextId = sess₂.sfContextId → sid₁ = sid₂

/-- Refinement relation tying a concrete system state to the expiry-free
abstract cart machine. -/
structure RSim (now : Int) (s : SysState) (a : AbsState) : Prop where
  inv : RunInv now s
  nextSess : s.nextSessionId = a.nextSessionId
  keys : s.sessions.map Prod.fst = a.sessions.map Prod.fst
  items : ∀ sid sess, alistGet s.sessions sid = some sess →
      alistGet a.sessions sid = some (projItems sess.items)

/-- Does a coordinator result carry `ContextRecoveryFailedError`? -/
def isRecoveryFailed : Except CartError Cart → Bool
  | .error (.recoveryFailed _ _) => true
  | _ => false

/-- Does a coordinator result surface an expired-context error to the
caller? -/
def isExpiredSurface : Except CartError Cart → Bool
  | .error (.client (.contextExpired _)) => true
  | _ => false

/-- A provider stub whose every call fails (`Provider unavailable`), as the
tests build with a mocked client, used to exercise recovery failure. -/
def failClient : CartClient Unit :=
  { createContext := fun _ c => (.error (.providerFailure 7), c)
    getCart := fun _ _ c => (.error (.providerFailure 7), c)
    addItem := fun _ _ _ c => (.error (.providerFailure 7), c)
    removeItem := fun _ _ _ c => (.error (.providerFailure 7), c)
    updateItem := fun _ _ _ _ c => (.error (.providerFailure 7), c) }

/-! ## Basic lemmas about the association lists and projections -/

theorem alistGet_nil (k : Nat) : alistGet ([] : List (Nat × α)) k = none := rfl

theorem alistGet_cons (p : Nat × α) (l : List (Nat × α)) (k : Nat) :
    alistGet (p :: l) k = if p.1 = k then some p.2 else alistGet l k := by
  by_cases h : p.1 = k
  · simp [alistGet, List.find?_cons_of_pos, h]
  · rw [if_neg h]
    unfold alistGet
    rw [List.find?_cons_of_neg]
    simp [h]

theorem alistGet_set_self (l : List (Nat × α)) (k : Nat) (v : α) :
    alistGet (alistSet l k v) k = some v := by
  induction l with
  | nil => simp [alistSet, alistGet_cons]
  | cons p l ih =>
      by_cases h : p.1 = k
      · simp [alistSet, h, alistGet_cons]
      · simp [alistSet, h, alistGet_cons, ih]

theorem alistGet_set_ne (l : List (Nat × α)) (k k' : Nat) (v : α) (h : k' ≠ k) :
    alistGet (alistSet l k v) k' = alistGet l k' := by
  induction l with
  | nil => simp [alistSet, alistGet_cons, alistGet_nil, Ne.symm h]
  | cons p l ih =>
      by_cases hp : p.1 = k
      · subst hp
        simp [alistSet, alistGet_cons, Ne.symm h]
      · simp [alistSet, hp, alistGet_cons, ih]

theorem alistGet_isSome_iff (l : List (Nat × α)) (k : Nat) :
    (alistGet l k).isSome = true ↔ k ∈ l.map Prod.fst := by
  induction l with
  | nil => simp [alistGet]
  | cons p l ih =>
      by_cases h : p.1 = k
      · simp [alistGet_cons, h]
      · rw [alistGet_cons, if_neg h, ih, List.map_cons]
        constructor
        · exact fun hm => List.mem_cons_of_mem _ hm
        · intro hm
          rcases List.mem_cons.mp hm with h1 | h1
          · exact absurd h1.symm h
          · exact h1

theorem alistGet_eq_none_iff (l : List (Nat × α)) (k : Nat) :
    alistGet l k = none ↔ ¬ k ∈ l.map Prod.fst := by
  rw [← alistGet_isSome_iff]
  cases alistGet l k <;> simp

theorem keys_alistSet (l : List (Nat × α)) (k : Nat) (v : α) :
    (alistSet l k v).map Prod.fst =
      if k ∈ l.map Prod.fst then l.map Prod.fst else l.map Prod.fst ++ [k] := by
  induction l with
  | nil => simp [alistSet]
  | cons p l ih =>
      by_cases h : p.1 = k
      · have hm : k ∈ (p :: l).map Prod.fst := by
          rw [List.map_cons, h]
          exact List.mem_cons_self _ _
        rw [if_pos hm]
        simp [alistSet, h]
      · have hne : ¬ k = p.1 := fun hk => h hk.symm
        by_cases h2 : k ∈ l.map Prod.fst
        · have hm : k ∈ (p :: l).map Prod.fst := by
            rw [List.map_cons]
            exact List.mem_cons_of_mem _ h2
          rw [if_pos hm]
          simp [alistSet, h, ih, h2]
        · have hm : ¬ k ∈ (p :: l).map Prod.fst := by
            rw [List.map_cons, List.mem_cons]
            rintro (hk | hk)
            · exact hne hk
            · exact h2 hk
          rw [if_neg hm]
          simp [alistSet, h, ih, h2]

theorem projItems_nil : projItems [] = [] := rfl

theorem projItems_append (l₁ l₂ : List CartItem) :
    projItems (l₁ ++ l₂) = projItems l₁ ++ projItems l₂ := by
  simp [projItems]

theorem cartTotal_proj (l : List CartItem) :
    SalesforceCartClient.cartTotal l = absTotal (projItems l) := by
  simp [SalesforceCartClient.cartTotal, absTotal, projItems, List.foldl_map, projItem]

theorem visible_buildCart (d : ContextData) :
    visibleOfCart (SalesforceCartClient.buildCart d) = absView (projItems d.items) := by
  simp [visibleOfCart, SalesforceCartClient.buildCart, absView, cartTotal_proj, projItems,
    List.map_map, projItem]

/-- A context created now is valid now: the strict `>` check fails. -/
theorem not_now_gt_fresh (now : Int) :
    ¬ now > now + SalesforceCartClient.CONTEXT_EXPIRY_MS := by
  have h : SalesforceCartClient.CONTEXT_EXPIRY_MS = 1800000 := by
    norm_num [SalesforceCartClient.CONTEXT_EXPIRY_MS]
  rw [h]
  omega


/-! ## Behaviour of recovery against the real provider -/

theorem getValidContext_some {now : Int} {s : SfState} {contextId : Nat} {d : ContextData}
    (h : alistGet s.contexts contextId = some d) (hv : ¬ now > d.context.expiresAt) :
    SalesforceCartClient.getValidContext now s contextId = some d := by
  simp [SalesforceCartClient.getValidContext, h, hv]

theorem getValidContext_of_unknown {now : Int} {s : SfState} {contextId : Nat}
    (h : alistGet s.contexts contextId = none) :
    SalesforceCartClient.getValidContext now s contextId = none := by
  simp [SalesforceCartClient.getValidContext, h]

/-- Successful provider `addItem` on a valid context, in closed form. -/
theorem addItem_sf_ok {now : Int} {c : SfState} {ctxId : Nat} {d : ContextData}
    (h : alistGet c.contexts ctxId = some d) (hv : ¬ now > d.context.expiresAt)
    (input : CartItemInput) :
    SalesforceCartClient.addItem now ctxId input c =
      (.ok (SalesforceCartClient.buildCart
          { d with items := d.items ++ [newCartItem c.itemCounter input] }),
        { c with
            contexts := alistSet c.contexts ctxId
              { d with items := d.items ++ [newCartItem c.itemCounter input] }
            itemCounter := c.itemCounter + 1 }) := by
  simp [SalesforceCartClient.addItem, getValidContext_some h hv, newCartItem]

/-- Replaying a list of items into a valid context of the real provider always
succeeds; it appends fresh copies of the items (same identity-free content,
consecutive new ids) to that context and touches nothing else. -/
theorem replayItems_sf (now : Int) (ctxId : Nat) (items : List CartItem) :
    ∀ (c : SfState) (d : ContextData),
      alistGet c.contexts ctxId = some d →
      ¬ now > d.context.expiresAt →
      ∃ (c' : SfState) (newItems : List CartItem),
        CartService.replayItems sfClient now ctxId items c = (.ok (), c') ∧
        alistGet c'.contexts ctxId = some { d with items := d.items ++ newItems } ∧
        projItems newItems = projItems items ∧
        newItems.map CartItem.id = idRange (c.itemCounter + 1) items.length ∧
        (∀ k, k ≠ ctxId → alistGet c'.contexts k = alistGet c.contexts k) ∧
        c'.nextContextId = c.nextContextId ∧
        c'.itemCounter = c.itemCounter + items.length := by
  induction items with
  | nil =>
      intro c d h _
      refine ⟨c, [], rfl, ?_, rfl, rfl, fun _ _ => rfl, rfl, rfl⟩
      simpa using h
  | cons item rest ih =>
      intro c d h hv
      have hstep := addItem_sf_ok h hv
        { productId := item.productId, name := item.name, price := item.price,
          quantity := item.quantity }
      obtain ⟨c', newItems, hrun, hget, hproj, hids, hframe, hnext, hcount⟩ :=
        ih { c with
              contexts := alistSet c.contexts ctxId
                { d with items := d.items ++
                    [newCartItem c.itemCounter
                      { productId := item.productId, name := item.name,
                        price := item.price, quantity := item.quantity }] }
              itemCounter := c.itemCounter + 1 }
          { d with items := d.items ++
              [newCartItem c.itemCounter
                { productId := item.productId, name := item.name,
                  price := item.price, quantity := item.quantity }] }
          (by simp [alistGet_set_self]) hv
      refine ⟨c',
        newCartItem c.itemCounter
          { productId := item.productId, name := item.name, price := item.price,
            quantity := item.quantity } :: newItems,
        ?_, ?_, ?_, ?_, ?_, ?_, ?_⟩
      · simp only [CartService.replayItems]
        rw [show sfClient.addItem = SalesforceCartClient.addItem from rfl, hstep]
        exact hrun
      · rw [hget]
        simp [List.append_assoc]
      · simp only [projItems, List.map_cons] at hproj ⊢
        rw [hproj]
        rfl
      · simp only [List.map_cons] at hids ⊢
        rw [hids]
        rfl
      · intro k hk
        rw [hframe k hk]
        simp [alistGet_set_ne _ _ _ _ hk]
      · simpa using hnext
      · simp only [List.length_cons]
        simp at hcount
        omega

/-- Provider `createContext` in closed form. -/
theorem createContext_sf (now : Int) (c : SfState) :
    SalesforceCartClient.createContext now c =
      (.ok { id := c.nextContextId, expiresAt := now + SalesforceCartClient.CONTEXT_EXPIRY_MS },
        { c with
            contexts := alistSet c.contexts c.nextContextId
              { context := { id := c.nextContextId,
                             expiresAt := now + SalesforceCartClient.CONTEXT_EXPIRY_MS }
                items := [] }
            nextContextId := c.nextContextId + 1 }) := by
  simp [SalesforceCartClient.createContext]

/-- Recovery against the real provider always succeeds: it creates the fresh
context `c.nextContextId`, replays exactly the session's items into it (same
identity-free content, fresh consecutive ids), rebinds the session to it, and
touches no other context. -/
theorem recoverContext_sf (now : Int) (sess : SessionCart) (c : SfState) :
    ∃ (c' : SfState) (newItems : List CartItem),
      CartService.recoverContext sfClient now sess c =
        (.ok { sess with sfContextId := c.nextContextId }, c') ∧
      alistGet c'.contexts c.nextContextId =
        some { context := { id := c.nextContextId,
                            expiresAt := now + SalesforceCartClient.CONTEXT_EXPIRY_MS }
               items := newItems } ∧
      projItems newItems = projItems sess.items ∧
      newItems.map CartItem.id = idRange (c.itemCounter + 1) sess.items.length ∧
      (∀ k, k ≠ c.nextContextId → alistGet c'.contexts k = alistGet c.contexts k) ∧
      c'.nextContextId = c.nextContextId + 1 ∧
      c'.itemCounter = c.itemCounter + sess.items.length := by
  obtain ⟨c', newItems, hrun, hget, hproj, hids, hframe, hnext, hcount⟩ :=
    replayItems_sf now c.nextContextId sess.items
      { c with
          contexts := alistSet c.contexts c.nextContextId
            { context := { id := c.nextContextId,
                           expiresAt := now + SalesforceCartClient.CONTEXT_EXPIRY_MS }
              items := [] }
          nextContextId := c.nextContextId + 1 }
      { context := { id := c.nextContextId,
                     expiresAt := now + SalesforceCartClient.CONTEXT_EXPIRY_MS }
        items := [] }
      (by simp [alistGet_set_self]) (not_now_gt_fresh now)
  refine ⟨c', newItems, ?_, ?_, hproj, ?_, ?_, ?_, ?_⟩
  · simp only [CartService.recoverContext]
    rw [show sfClient.createContext = SalesforceCartClient.createContext from rfl,
      createContext_sf]
    simp only [hrun]
  · rw [hget]
    simp
  · simpa using hids
  · intro k hk
    rw [hframe k hk]
    simp [alistGet_set_ne _ _ _ _ hk]
  · simpa using hnext
  · simpa using hcount

theorem alistSet_set_self (l : List (Nat × α)) (k : Nat) (v v' : α) :
    alistSet (alistSet l k v) k v' = alistSet l k v' := by
  induction l with
  | nil => simp [alistSet]
  | cons p l ih =>
      by_cases h : p.1 = k
      · simp [alistSet, h]
      · simp [alistSet, h, ih]

theorem getCart_sf_ok {now : Int} {c : SfState} {ctxId : Nat} {d : ContextData}
    (h : alistGet c.contexts ctxId = some d) (hv : ¬ now > d.context.expiresAt) :
    SalesforceCartClient.getCart now ctxId c = (.ok (SalesforceCartClient.buildCart d), c) := by
  simp [SalesforceCartClient.getCart, getValidContext_some h hv]

theorem getCart_sf_expired_client {now : Int} {c : SfState} {ctxId : Nat}
    (h : SalesforceCartClient.getValidContext now c ctxId = none) :
    SalesforceCartClient.getCart now ctxId c = (.error (.contextExpired ctxId), c) := by
  simp [SalesforceCartClient.getCart, h]

theorem addItem_sf_expired_client {now : Int} {c : SfState} {ctxId : Nat}
    (input : CartItemInput) (h : SalesforceCartClient.getValidContext now c ctxId = none) :
    SalesforceCartClient.addItem now ctxId input c = (.error (.contextExpired ctxId), c) := by
  simp [SalesforceCartClient.addItem, h]

/-- Service `getCart` on an unknown session: `CartNotFoundError`, state
untouched, no provider call. -/
theorem getCart_notFound {σ : Type} (C : CartClient σ) (now : Int) (sid : Nat)
    (s : ServiceState σ) (h : alistGet s.sessions sid = none) :
    CartService.getCart C now sid s = (.error (.cartNotFound sid), s) := by
  simp [CartService.getCart, h]

/-- Service `getCart` when the session's context is valid: returns the built
cart, updates only `lastAccessed` (no item sync). -/
theorem getCart_sf_valid {now : Int} {sid : Nat} {s : SysState} {sess : SessionCart}
    {d : ContextData}
    (hsess : alistGet s.sessions sid = some sess) (hsid : sess.sessionId = sid)
    (hd : alistGet s.client.contexts sess.sfContextId = some d)
    (hv : ¬ now > d.context.expiresAt) :
    CartService.getCart sfClient now sid s =
      (.ok (SalesforceCartClient.buildCart d),
        { s with sessions := alistSet s.sessions sid { sess with lastAccessed := now } }) := by
  simp only [CartService.getCart, hsess]
  rw [show (sfClient.getCart : Int → Nat → SfState → Except ClientError Cart × SfState) =
      SalesforceCartClient.getCart from rfl]
  rw [show CartService.setSession s { sess with lastAccessed := now } =
      { s with sessions := alistSet s.sessions sid { sess with lastAccessed := now } } from by
    simp [CartService.setSession, hsid]]
  rw [getCart_sf_ok hd hv]

/-- Service `getCart` when the session's context is expired or unknown:
recovery runs, the session is rebound to the fresh context
`s.client.nextContextId`, the retried provider call returns the replayed
cart — and `Session.items` is NOT re-synchronized. -/
theorem getCart_sf_expired {now : Int} {sid : Nat} {s : SysState} {sess : SessionCart}
    (hsess : alistGet s.sessions sid = some sess) (hsid : sess.sessionId = sid)
    (hexp : SalesforceCartClient.getValidContext now s.client sess.sfContextId = none) :
    ∃ (c' : SfState) (newItems : List CartItem),
      CartService.getCart sfClient now sid s =
        (.ok { id := .ofContext s.client.nextContextId
               items := newItems
               total := SalesforceCartClient.cartTotal newItems },
         { client := c'
           sessions := alistSet s.sessions sid
             { sess with sfContextId := s.client.nextContextId, lastAccessed := now }
           nextSessionId := s.nextSessionId }) ∧
      alistGet c'.contexts s.client.nextContextId =
        some { context := { id := s.client.nextContextId,
                            expiresAt := now + SalesforceCartClient.CONTEXT_EXPIRY_MS }
               items := newItems } ∧
      projItems newItems = projItems sess.items ∧
      newItems.map CartItem.id = idRange (s.client.itemCounter + 1) sess.items.length ∧
      (∀ k, k ≠ s.client.nextContextId →
        alistGet c'.contexts k = alistGet s.client.contexts k) ∧
      c'.nextContextId = s.client.nextContextId + 1 ∧
      c'.itemCounter = s.client.itemCounter + sess.items.length := by
  obtain ⟨c', newItems, hrec, hget, hproj, hids, hframe, hnext, hcount⟩ :=
    recoverContext_sf now { sess with lastAccessed := now } s.client
  refine ⟨c', newItems, ?_, hget, by simpa using hproj, by simpa using hids, hframe, hnext,
    by simpa using hcount⟩
  simp only [CartService.getCart, hsess]
  rw [show (sfClient.getCart : Int → Nat → SfState → Except ClientError Cart × SfState) =
      SalesforceCartClient.getCart from rfl]
  rw [show (CartService.setSession s { sess with lastAccessed := now }).client = s.client
      from rfl]
  rw [getCart_sf_expired_client hexp]
  simp only
  rw [hrec]
  simp only [CartService.setSession]
  rw [getCart_sf_ok hget (not_now_gt_fresh now)]
  simp [SalesforceCartClient.buildCart, hsid, alistSet_set_self]

/-- Service `createCart` with the real provider, in closed form: fresh session
id, fresh context, empty authoritative list, cart id `cart_<sessionId>`. -/
theorem createCart_sf (now : Int) (s : SysState) :
    CartService.createCart sfClient now s =
      (.ok (s.nextSessionId, { id := .ofSession s.nextSessionId, items := [], total := 0 }),
       { client :=
           { contexts := alistSet s.client.contexts s.client.nextContextId
               { context := { id := s.client.nextContextId,
                              expiresAt := now + SalesforceCartClient.CONTEXT_EXPIRY_MS }
                 items := [] }
             nextContextId := s.client.nextContextId + 1
             itemCounter := s.client.itemCounter }
         sessions := alistSet s.sessions s.nextSessionId
           { sessionId := s.nextSessionId
             sfContextId := s.client.nextContextId
             items := []
             createdAt := now
             lastAccessed := now }
         nextSessionId := s.nextSessionId + 1 }) := by
  simp only [CartService.createCart]
  rw [show (sfClient.createContext : Int → SfState → Except ClientError SfContext × SfState) =
      SalesforceCartClient.createContext from rfl, createContext_sf]
  simp [CartService.setSession]

/-- Service `addItem` on an unknown session. -/
theorem addItem_notFound {σ : Type} (C : CartClient σ) (now : Int) (sid : Nat)
    (input : CartItemInput) (s : ServiceState σ) (h : alistGet s.sessions sid = none) :
    CartService.addItem C now sid input s = (.error (.cartNotFound sid), s) := by
  simp [CartService.addItem, h]

/-- Service `removeItem` on an unknown session. -/
theorem removeItem_notFound {σ : Type} (C : CartClient σ) (now : Int) (sid itemId : Nat)
    (s : ServiceState σ) (h : alistGet s.sessions sid = none) :
    CartService.removeItem C now sid itemId s = (.error (.cartNotFound sid), s) := by
  simp [CartService.removeItem, h]

/-- Service `updateItem` on an unknown session. -/
theorem updateItem_notFound {σ : Type} (C : CartClient σ) (now : Int) (sid itemId q : Nat)
    (s : ServiceState σ) (h : alistGet s.sessions sid = none) :
    CartService.updateItem C now sid itemId q s = (.error (.cartNotFound sid), s) := by
  simp [CartService.updateItem, h]

/-- Service `addItem` when the session's context is valid: the new item is
appended and `Session.items` is re-synchronized with the returned cart. -/
theorem addItem_sf_valid {now : Int} {sid : Nat} {s : SysState} {sess : SessionCart}
    {d : ContextData} (input : CartItemInput)
    (hsess : alistGet s.sessions sid = some sess) (hsid : sess.sessionId = sid)
    (hd : alistGet s.client.contexts sess.sfContextId = some d)
    (hv : ¬ now > d.context.expiresAt) :
    CartService.addItem sfClient now sid input s =
      (.ok (SalesforceCartClient.buildCart
          { d with items := d.items ++ [newCartItem s.client.itemCounter input] }),
       { client :=
           { s.client with
               contexts := alistSet s.client.contexts sess.sfContextId
                 { d with items := d.items ++ [newCartItem s.client.itemCounter input] }
               itemCounter := s.client.itemCounter + 1 }
         sessions := alistSet s.sessions sid
           { sess with
               lastAccessed := now
               items := d.items ++ [newCartItem s.client.itemCounter input] }
         nextSessionId := s.nextSessionId }) := by
  simp only [CartService.addItem, hsess]
  rw [show (sfClient.addItem :
        Int → Nat → CartItemInput → SfState → Except ClientError Cart × SfState) =
      SalesforceCartClient.addItem from rfl]
  rw [show (CartService.setSession s { sess with lastAccessed := now }).client = s.client
      from rfl]
  rw [addItem_sf_ok hd hv input]
  simp [CartService.setSession, SalesforceCartClient.buildCart, hsid, alistSet_set_self]

/-- Service `addItem` when the session's context is expired or unknown:
recovery replays the authoritative items into a fresh context, the add is
retried there, and `Session.items` is re-synchronized with the full result. -/
theorem addItem_sf_expired {now : Int} {sid : Nat} {s : SysState} {sess : SessionCart}
    (input : CartItemInput)
    (hsess : alistGet s.sessions sid = some sess) (hsid : sess.sessionId = sid)
    (hexp : SalesforceCartClient.getValidContext now s.client sess.sfContextId = none) :
    ∃ (c'' : SfState) (fullItems : List CartItem),
      CartService.addItem sfClient now sid input s =
        (.ok { id := .ofContext s.client.nextContextId
               items := fullItems
               total := SalesforceCartClient.cartTotal fullItems },
         { client := c''
           sessions := alistSet s.sessions sid
             { sess with
                 sfContextId := s.client.nextContextId
                 lastAccessed := now
                 items := fullItems }
           nextSessionId := s.nextSessionId }) ∧
      projItems fullItems = projItems sess.items ++ [projInput input] ∧
      alistGet c''.contexts s.client.nextContextId =
        some { context := { id := s.client.nextContextId,
                            expiresAt := now + SalesforceCartClient.CONTEXT_EXPIRY_MS }
               items := fullItems } ∧
      (∀ k, k ≠ s.client.nextContextId →
        alistGet c''.contexts k = alistGet s.client.contexts k) ∧
      c''.nextContextId = s.client.nextContextId + 1 := by
  obtain ⟨c', newItems, hrec, hget, hproj, hids, hframe, hnext, hcount⟩ :=
    recoverContext_sf now { sess with lastAccessed := now } s.client
  refine ⟨{ c' with
              contexts := alistSet c'.contexts s.client.nextContextId
                { context := { id := s.client.nextContextId,
                               expiresAt := now + SalesforceCartClient.CONTEXT_EXPIRY_MS }
                  items := newItems ++ [newCartItem c'.itemCounter input] }
              itemCounter := c'.itemCounter + 1 },
          newItems ++ [newCartItem c'.itemCounter input], ?_, ?_, ?_, ?_, ?_⟩
  · simp only [CartService.addItem, hsess]
    rw [show (sfClient.addItem :
          Int → Nat → CartItemInput → SfState → Except ClientError Cart × SfState) =
        SalesforceCartClient.addItem from rfl]
    rw [show (CartService.setSession s { sess with lastAccessed := now }).client = s.client
        from rfl]
    rw [addItem_sf_expired_client input hexp]
    simp only
    rw [hrec]
    simp only [CartService.setSession]
    rw [addItem_sf_ok hget (not_now_gt_fresh now) input]
    simp [SalesforceCartClient.buildCart, hsid, alistSet_set_self]
  · rw [projItems_append]
    simp only [hproj]
    simp [projItems, projItem, newCartItem, projInput]
  · simp [alistGet_set_self]
  · intro k hk
    rw [alistGet_set_ne _ _ _ _ hk]
    exact hframe k hk
  · simpa using hnext

/-! ## Lemmas about searching and editing item lists up to identity -/

theorem find?_productId_proj {p : Nat} :
    ∀ {l₁ l₂ : List CartItem}, projItems l₁ = projItems l₂ →
      Option.map projItem (l₁.find? (fun it => it.productId == p)) =
      Option.map projItem (l₂.find? (fun it => it.productId == p))
  | [], l₂ => by
      intro h
      have : l₂ = [] := by
        simpa [projItems] using h.symm
      simp [this]
  | a :: l₁, [] => by
      intro h
      simp [projItems] at h
  | a :: l₁, b :: l₂ => by
      intro h
      simp only [projItems, List.map_cons, List.cons.injEq] at h
      obtain ⟨hab, hrest⟩ := h
      have hpid : a.productId = b.productId := congrArg ProjItem.productId hab
      by_cases hp : a.productId = p
      · rw [List.find?_cons_of_pos _ (by simp [hp]),
          List.find?_cons_of_pos _ (by simp [hpid ▸ hp])]
        simp [hab]
      · rw [List.find?_cons_of_neg _ (by simp [hp]),
          List.find?_cons_of_neg _ (by simp [hpid ▸ hp])]
        exact find?_productId_proj hrest

theorem eraseP_productId_proj {p : Nat} :
    ∀ {l₁ l₂ : List CartItem}, projItems l₁ = projItems l₂ →
      projItems (l₁.eraseP (fun it => it.productId == p)) =
      projItems (l₂.eraseP (fun it => it.productId == p))
  | [], l₂ => by
      intro h
      have : l₂ = [] := by
        simpa [projItems] using h.symm
      simp [this]
  | a :: l₁, [] => by
      intro h
      simp [projItems] at h
  | a :: l₁, b :: l₂ => by
      intro h
      simp only [projItems, List.map_cons, List.cons.injEq] at h
      obtain ⟨hab, hrest⟩ := h
      have hpid : a.productId = b.productId := congrArg ProjItem.productId hab
      by_cases hp : a.productId = p
      · rw [List.eraseP_cons_of_pos (by simp [hp]),
          List.eraseP_cons_of_pos (by simp [hpid ▸ hp])]
        exact hrest
      · rw [List.eraseP_cons_of_neg (by simp [hp]),
          List.eraseP_cons_of_neg (by simp [hpid ▸ hp])]
        simp only [projItems, List.map_cons, List.cons.injEq]
        exact ⟨hab, eraseP_productId_proj hrest⟩

/-- A found productId match exists in any identity-free-equal list. -/
theorem exists_matching_productId {l₁ l₂ : List CartItem}
    (h : projItems l₁ = projItems l₂) {target : CartItem} (hmem : target ∈ l₂) :
    ∃ it, l₁.find? (fun x => x.productId == target.productId) = some it ∧
      it.productId = target.productId := by
  have h₂ : (l₂.find? (fun x => x.productId == target.productId)).isSome := by
    rw [List.find?_isSome]
    exact ⟨target, hmem, by simp⟩
  have hmap := @find?_productId_proj target.productId _ _ h
  cases hfind : l₁.find? (fun x => x.productId == target.productId) with
  | none =>
      rw [hfind] at hmap
      cases hfind₂ : l₂.find? (fun x => x.productId == target.productId) with
      | none => rw [hfind₂] at h₂; simp at h₂
      | some it => rw [hfind₂] at hmap; simp at hmap
  | some it =>
      refine ⟨it, rfl, ?_⟩
      have := List.find?_some hfind
      simpa using this

theorem mem_idRange : ∀ {n start x : Nat}, x ∈ idRange start n → start ≤ x ∧ x < start + n
  | 0, start, x => by simp [idRange]
  | n + 1, start, x => by
      intro h
      simp only [idRange, List.mem_cons] at h
      rcases h with h | h
      · omega
      · have := mem_idRange h
        omega

theorem idRange_nodup : ∀ (n start : Nat), (idRange start n).Nodup
  | 0, start => by simp [idRange]
  | n + 1, start => by
      simp only [idRange, List.nodup_cons]
      refine ⟨fun h => ?_, idRange_nodup n (start + 1)⟩
      have := mem_idRange h
      omega

/-- When the item ids in `l` are distinct, removing the item found by a
productId search is removing the first productId match. -/
theorem eraseP_id_of_find?_productId :
    ∀ {l : List CartItem} {p : Nat} {newItem : CartItem},
      (l.map CartItem.id).Nodup →
      l.find? (fun it => it.productId == p) = some newItem →
      l.eraseP (fun it => it.id == newItem.id) = l.eraseP (fun it => it.productId == p)
  | [], p, newItem => by simp
  | a :: l, p, newItem => by
      intro hnodup hfind
      simp only [List.map_cons, List.nodup_cons] at hnodup
      obtain ⟨hnotin, hnodup'⟩ := hnodup
      by_cases hp : a.productId = p
      · rw [List.find?_cons_of_pos _ (by simp [hp])] at hfind
        have ha : newItem = a := by simpa using hfind.symm
        subst ha
        rw [List.eraseP_cons_of_pos (by simp), List.eraseP_cons_of_pos (by simp [hp])]
      · rw [List.find?_cons_of_neg _ (by simp [hp])] at hfind
        have hmem : newItem ∈ l := List.mem_of_find?_eq_some hfind
        have hne : a.id ≠ newItem.id := by
          intro he
          exact hnotin (he ▸ List.mem_map_of_mem CartItem.id hmem)
        rw [List.eraseP_cons_of_neg (by simp [hne]),
          List.eraseP_cons_of_neg (by simp [hp])]
        rw [eraseP_id_of_find?_productId hnodup' hfind]

/-- Same statement for in-place quantity updates. -/
theorem updateFirst_id_of_find?_productId (f : CartItem → CartItem) :
    ∀ {l : List CartItem} {p : Nat} {newItem : CartItem},
      (l.map CartItem.id).Nodup →
      l.find? (fun it => it.productId == p) = some newItem →
      SalesforceCartClient.updateFirst (fun it => it.id == newItem.id) f l =
      SalesforceCartClient.updateFirst (fun it => it.productId == p) f l
  | [], p, newItem => by simp [SalesforceCartClient.updateFirst]
  | a :: l, p, newItem => by
      intro hnodup hfind
      simp only [List.map_cons, List.nodup_cons] at hnodup
      obtain ⟨hnotin, hnodup'⟩ := hnodup
      by_cases hp : a.productId = p
      · rw [List.find?_cons_of_pos _ (by simp [hp])] at hfind
        have ha : newItem = a := by simpa using hfind.symm
        subst ha
        simp [SalesforceCartClient.updateFirst, hp]
      · rw [List.find?_cons_of_neg _ (by simp [hp])] at hfind
        have hmem : newItem ∈ l := List.mem_of_find?_eq_some hfind
        have hne : a.id ≠ newItem.id := by
          intro he
          exact hnotin (he ▸ List.mem_map_of_mem CartItem.id hmem)
        simp only [SalesforceCartClient.updateFirst]
        rw [if_neg (by simp [hne]), if_neg (by simp [hp]),
          updateFirst_id_of_find?_productId f hnodup' hfind]

theorem updateFirst_productId_proj {p q : Nat} :
    ∀ {l₁ l₂ : List CartItem}, projItems l₁ = projItems l₂ →
      projItems (SalesforceCartClient.updateFirst (fun it => it.productId == p)
        (fun it => { it with quantity := q }) l₁) =
      projItems (SalesforceCartClient.updateFirst (fun it => it.productId == p)
        (fun it => { it with quantity := q }) l₂)
  | [], l₂ => by
      intro h
      have : l₂ = [] := by
        simpa [projItems] using h.symm
      simp [this]
  | a :: l₁, [] => by
      intro h
      simp [projItems] at h
  | a :: l₁, b :: l₂ => by
      intro h
      simp only [projItems, List.map_cons, List.cons.injEq] at h
      obtain ⟨hab, hrest⟩ := h
      have hpid : a.productId = b.productId := congrArg ProjItem.productId hab
      by_cases hp : a.productId = p
      · simp only [SalesforceCartClient.updateFirst]
        rw [if_pos (by simp [hp]), if_pos (by simp [hpid ▸ hp])]
        simp only [projItems, List.map_cons, List.cons.injEq]
        constructor
        · simp only [projItem] at hab ⊢
          simp [CartItem.mk.injEq] at hab ⊢
          simp_all [ProjItem.mk.injEq]
        · exact hrest
      · simp only [SalesforceCartClient.updateFirst]
        rw [if_neg (by simp [hp]), if_neg (by simp [hpid ▸ hp])]
        simp only [projItems, List.map_cons, List.cons.injEq]
        exact ⟨hab, updateFirst_productId_proj hrest⟩

theorem removeItem_sf_ok {now : Int} {c : SfState} {ctxId itemId : Nat} {d : ContextData}
    (h : alistGet c.contexts ctxId = some d) (hv : ¬ now > d.context.expiresAt)
    (hfind : (d.items.find? (fun it => it.id == itemId)).isSome) :
    SalesforceCartClient.removeItem now ctxId itemId c =
      (.ok (SalesforceCartClient.buildCart
          { d with items := d.items.eraseP (fun it => it.id == itemId) }),
       { c with
           contexts := alistSet c.contexts ctxId
             { d with items := d.items.eraseP (fun it => it.id == itemId) } }) := by
  obtain ⟨x, hx⟩ := Option.isSome_iff_exists.mp hfind
  simp [SalesforceCartClient.removeItem, getValidContext_some h hv, hx]

theorem removeItem_sf_missing {now : Int} {c : SfState} {ctxId itemId : Nat} {d : ContextData}
    (h : alistGet c.contexts ctxId = some d) (hv : ¬ now > d.context.expiresAt)
    (hfind : d.items.find? (fun it => it.id == itemId) = none) :
    SalesforceCartClient.removeItem now ctxId itemId c =
      (.error (.itemNotFound itemId), c) := by
  simp [SalesforceCartClient.removeItem, getValidContext_some h hv, hfind]

theorem removeItem_sf_expired_client {now : Int} {c : SfState} {ctxId : Nat} (itemId : Nat)
    (h : SalesforceCartClient.getValidContext now c ctxId = none) :
    SalesforceCartClient.removeItem now ctxId itemId c =
      (.error (.contextExpired ctxId), c) := by
  simp [SalesforceCartClient.removeItem, h]

theorem updateItem_sf_ok {now : Int} {c : SfState} {ctxId itemId : Nat} (q : Nat)
    {d : ContextData}
    (h : alistGet c.contexts ctxId = some d) (hv : ¬ now > d.context.expiresAt)
    (hfind : (d.items.find? (fun it => it.id == itemId)).isSome) :
    SalesforceCartClient.updateItem now ctxId itemId q c =
      (.ok (SalesforceCartClient.buildCart
          { d with
              items := SalesforceCartClient.updateFirst (fun it => it.id == itemId)
                (fun it => { it with quantity := q }) d.items }),
       { c with
           contexts := alistSet c.contexts ctxId
             { d with
                 items := SalesforceCartClient.updateFirst (fun it => it.id == itemId)
                   (fun it => { it with quantity := q }) d.items } }) := by
  obtain ⟨x, hx⟩ := Option.isSome_iff_exists.mp hfind
  simp [SalesforceCartClient.updateItem, getValidContext_some h hv, hx]

theorem updateItem_sf_missing {now : Int} {c : SfState} {ctxId itemId : Nat} (q : Nat)
    {d : ContextData}
    (h : alistGet c.contexts ctxId = some d) (hv : ¬ now > d.context.expiresAt)
    (hfind : d.items.find? (fun it => it.id == itemId) = none) :
    SalesforceCartClient.updateItem now ctxId itemId q c =
      (.error (.itemNotFound itemId), c) := by
  simp [SalesforceCartClient.updateItem, getValidContext_some h hv, hfind]

theorem updateItem_sf_expired_client {now : Int} {c : SfState} {ctxId : Nat} (itemId q : Nat)
    (h : SalesforceCartClient.getValidContext now c ctxId = none) :
    SalesforceCartClient.updateItem now ctxId itemId q c =
      (.error (.contextExpired ctxId), c) := by
  simp [SalesforceCartClient.updateItem, h]

/-! ## Service `removeItem`, case by case (real provider) -/

/-- Valid context, item present: remove-by-id plus re-synchronization. -/
theorem removeItem_sf_valid_found {now : Int} {sid itemId : Nat} {s : SysState}
    {sess : SessionCart} {d : ContextData}
    (hsess : alistGet s.sessions sid = some sess) (hsid : sess.sessionId = sid)
    (hd : alistGet s.client.contexts sess.sfContextId = some d)
    (hv : ¬ now > d.context.expiresAt)
    (hfind : (d.items.find? (fun it => it.id == itemId)).isSome) :
    CartService.removeItem sfClient now sid itemId s =
      (.ok (SalesforceCartClient.buildCart
          { d with items := d.items.eraseP (fun it => it.id == itemId) }),
       { client :=
           { s.client with
               contexts := alistSet s.client.contexts sess.sfContextId
                 { d with items := d.items.eraseP (fun it => it.id == itemId) } }
         sessions := alistSet s.sessions sid
           { sess with
               lastAccessed := now
               items := d.items.eraseP (fun it => it.id == itemId) }
         nextSessionId := s.nextSessionId }) := by
  simp only [CartService.removeItem, hsess]
  rw [show (sfClient.removeItem :
        Int → Nat → Nat → SfState → Except ClientError Cart × SfState) =
      SalesforceCartClient.removeItem from rfl]
  rw [show (CartService.setSession s { sess with lastAccessed := now }).client = s.client
      from rfl]
  rw [removeItem_sf_ok hd hv hfind]
  simp [CartService.setSession, SalesforceCartClient.buildCart, hsid, alistSet_set_self]

/-- Valid context, item absent: `ItemNotFoundError` propagates unchanged. -/
theorem removeItem_sf_valid_missing {now : Int} {sid itemId : Nat} {s : SysState}
    {sess : SessionCart} {d : ContextData}
    (hsess : alistGet s.sessions sid = some sess) (hsid : sess.sessionId = sid)
    (hd : alistGet s.client.contexts sess.sfContextId = some d)
    (hv : ¬ now > d.context.expiresAt)
    (hfind : d.items.find? (fun it => it.id == itemId) = none) :
    CartService.removeItem sfClient now sid itemId s =
      (.error (.client (.itemNotFound itemId)),
       { s with sessions := alistSet s.sessions sid { sess with lastAccessed := now } }) := by
  simp only [CartService.removeItem, hsess]
  rw [show (sfClient.removeItem :
        Int → Nat → Nat → SfState → Except ClientError Cart × SfState) =
      SalesforceCartClient.removeItem from rfl]
  rw [show (CartService.setSession s { sess with lastAccessed := now }).client = s.client
      from rfl]
  rw [removeItem_sf_missing hd hv hfind]
  simp [CartService.setSession, hsid]

/-- Expired context, stale id not in the authoritative list: recovery runs and
rebinds the session, then the ORIGINAL expired-context error is rethrown. -/
theorem removeItem_sf_expired_stale {now : Int} {sid itemId : Nat} {s : SysState}
    {sess : SessionCart}
    (hsess : alistGet s.sessions sid = some sess) (hsid : sess.sessionId = sid)
    (hexp : SalesforceCartClient.getValidContext now s.client sess.sfContextId = none)
    (hnone : sess.items.find? (fun it => it.id == itemId) = none) :
    ∃ (c' : SfState) (newItems : List CartItem),
      CartService.removeItem sfClient now sid itemId s =
        (.error (.client (.contextExpired sess.sfContextId)),
         { client := c'
           sessions := alistSet s.sessions sid
             { sess with sfContextId := s.client.nextContextId, lastAccessed := now }
           nextSessionId := s.nextSessionId }) ∧
      alistGet c'.contexts s.client.nextContextId =
        some { context := { id := s.client.nextContextId,
                            expiresAt := now + SalesforceCartClient.CONTEXT_EXPIRY_MS }
               items := newItems } ∧
      projItems newItems = projItems sess.items ∧
      (∀ k, k ≠ s.client.nextContextId →
        alistGet c'.contexts k = alistGet s.client.contexts k) ∧
      c'.nextContextId = s.client.nextContextId + 1 := by
  obtain ⟨c', newItems, hrec, hget, hproj, hids, hframe, hnext, hcount⟩ :=
    recoverContext_sf now { sess with lastAccessed := now } s.client
  refine ⟨c', newItems, ?_, hget, by simpa using hproj, hframe, by simpa using hnext⟩
  simp only [CartService.removeItem, hsess]
  rw [show (sfClient.removeItem :
        Int → Nat → Nat → SfState → Except ClientError Cart × SfState) =
      SalesforceCartClient.removeItem from rfl]
  rw [show (CartService.setSession s { sess with lastAccessed := now }).client = s.client
      from rfl]
  rw [removeItem_sf_expired_client itemId hexp]
  simp only
  rw [hrec]
  simp only [CartService.setSession]
  rw [show ({ sess with lastAccessed := now, sfContextId := s.client.nextContextId } :
      SessionCart).items.find? (fun it => it.id == itemId) = none from hnone]
  simp [hsid, alistSet_set_self]

/-- Expired context, stale id present: recovery replays, the target is
re-resolved through its productId, and the FIRST item with that productId in
the recovered cart is removed. -/
theorem removeItem_sf_expired_found {now : Int} {sid itemId : Nat} {s : SysState}
    {sess : SessionCart} {target : CartItem}
    (hsess : alistGet s.sessions sid = some sess) (hsid : sess.sessionId = sid)
    (hexp : SalesforceCartClient.getValidContext now s.client sess.sfContextId = none)
    (htarget : sess.items.find? (fun it => it.id == itemId) = some target) :
    ∃ (c'' : SfState) (restItems : List CartItem),
      CartService.removeItem sfClient now sid itemId s =
        (.ok { id := .ofContext s.client.nextContextId
               items := restItems
               total := SalesforceCartClient.cartTotal restItems },
         { client := c''
           sessions := alistSet s.sessions sid
             { sess with
                 sfContextId := s.client.nextContextId
                 lastAccessed := now
                 items := restItems }
           nextSessionId := s.nextSessionId }) ∧
      projItems restItems =
        projItems (sess.items.eraseP (fun it => it.productId == target.productId)) ∧
      alistGet c''.contexts s.client.nextContextId =
        some { context := { id := s.client.nextContextId,
                            expiresAt := now + SalesforceCartClient.CONTEXT_EXPIRY_MS }
               items := restItems } ∧
      (∀ k, k ≠ s.client.nextContextId →
        alistGet c''.contexts k = alistGet s.client.contexts k) ∧
      c''.nextContextId = s.client.nextContextId + 1 := by
  obtain ⟨c', newItems, hrec, hget, hproj, hids, hframe, hnext, hcount⟩ :=
    recoverContext_sf now { sess with lastAccessed := now } s.client
  have hproj' : projItems newItems = projItems sess.items := by simpa using hproj
  have hmem : target ∈ sess.items := List.mem_of_find?_eq_some htarget
  obtain ⟨newItem, hfindNew, hpid⟩ := exists_matching_productId hproj' hmem
  have hnodup : (newItems.map CartItem.id).Nodup := by
    rw [hids]
    exact idRange_nodup _ _
  have hmemNew : newItem ∈ newItems := List.mem_of_find?_eq_some hfindNew
  have hfindNewId : (newItems.find? (fun it => it.id == newItem.id)).isSome := by
    rw [List.find?_isSome]
    exact ⟨newItem, hmemNew, by simp⟩
  have herase := eraseP_id_of_find?_productId hnodup hfindNew
  refine ⟨{ c' with
              contexts := alistSet c'.contexts s.client.nextContextId
                { context := { id := s.client.nextContextId,
                               expiresAt := now + SalesforceCartClient.CONTEXT_EXPIRY_MS }
                  items := newItems.eraseP
                    (fun it => it.productId == target.productId) } },
          newItems.eraseP (fun it => it.productId == target.productId), ?_,
          eraseP_productId_proj hproj', ?_, ?_, ?_⟩
  · simp only [CartService.removeItem, hsess]
    rw [show (sfClient.removeItem :
          Int → Nat → Nat → SfState → Except ClientError Cart × SfState) =
        SalesforceCartClient.removeItem from rfl]
    rw [show (sfClient.getCart : Int → Nat → SfState → Except ClientError Cart × SfState) =
        SalesforceCartClient.getCart from rfl]
    rw [show (CartService.setSession s { sess with lastAccessed := now }).client = s.client
        from rfl]
    rw [removeItem_sf_expired_client itemId hexp]
    simp only
    rw [hrec]
    simp only [CartService.setSession]
    rw [show ({ sess with lastAccessed := now, sfContextId := s.client.nextContextId } :
        SessionCart).items.find? (fun it => it.id == itemId) = some target from htarget]
    simp only
    rw [getCart_sf_ok hget (not_now_gt_fresh now)]
    simp only [SalesforceCartClient.buildCart]
    rw [hfindNew]
    simp only
    rw [removeItem_sf_ok hget (not_now_gt_fresh now) hfindNewId]
    rw [herase]
    simp [SalesforceCartClient.buildCart, hsid, alistSet_set_self]
  · simp [alistGet_set_self]
  · intro k hk
    rw [alistGet_set_ne _ _ _ _ hk]
    exact hframe k hk
  · simpa using hnext

/-! ## Service `updateItem`, case by case (real provider) -/

/-- Valid context, item present: quantity update plus re-synchronization. -/
theorem updateItem_sf_valid_found {now : Int} {sid itemId : Nat} (q : Nat) {s : SysState}
    {sess : SessionCart} {d : ContextData}
    (hsess : alistGet s.sessions sid = some sess) (hsid : sess.sessionId = sid)
    (hd : alistGet s.client.contexts sess.sfContextId = some d)
    (hv : ¬ now > d.context.expiresAt)
    (hfind : (d.items.find? (fun it => it.id == itemId)).isSome) :
    CartService.updateItem sfClient now sid itemId q s =
      (.ok (SalesforceCartClient.buildCart
          { d with
              items := SalesforceCartClient.updateFirst (fun it => it.id == itemId)
                (fun it => { it with quantity := q }) d.items }),
       { client :=
           { s.client with
               contexts := alistSet s.client.contexts sess.sfContextId
                 { d with
                     items := SalesforceCartClient.updateFirst (fun it => it.id == itemId)
                       (fun it => { it with quantity := q }) d.items } }
         sessions := alistSet s.sessions sid
           { sess with
               lastAccessed := now
               items := SalesforceCartClient.updateFirst (fun it => it.id == itemId)
                 (fun it => { it with quantity := q }) d.items }
         nextSessionId := s.nextSessionId }) := by
  simp only [CartService.updateItem, hsess]
  rw [show (sfClient.updateItem :
        Int → Nat → Nat → Nat → SfState → Except ClientError Cart × SfState) =
      SalesforceCartClient.updateItem from rfl]
  rw [show (CartService.setSession s { sess with lastAccessed := now }).client = s.client
      from rfl]
  rw [updateItem_sf_ok q hd hv hfind]
  simp [CartService.setSession, SalesforceCartClient.buildCart, hsid, alistSet_set_self]

/-- Valid context, item absent: `ItemNotFoundError` propagates unchanged. -/
theorem updateItem_sf_valid_missing {now : Int} {sid itemId : Nat} (q : Nat) {s : SysState}
    {sess : SessionCart} {d : ContextData}
    (hsess : alistGet s.sessions sid = some sess) (hsid : sess.sessionId = sid)
    (hd : alistGet s.client.contexts sess.sfContextId = some d)
    (hv : ¬ now > d.context.expiresAt)
    (hfind : d.items.find? (fun it => it.id == itemId) = none) :
    CartService.updateItem sfClient now sid itemId q s =
      (.error (.client (.itemNotFound itemId)),
       { s with sessions := alistSet s.sessions sid { sess with lastAccessed := now } }) := by
  simp only [CartService.updateItem, hsess]
  rw [show (sfClient.updateItem :
        Int → Nat → Nat → Nat → SfState → Except ClientError Cart × SfState) =
      SalesforceCartClient.updateItem from rfl]
  rw [show (CartService.setSession s { sess with lastAccessed := now }).client = s.client
      from rfl]
  rw [updateItem_sf_missing q hd hv hfind]
  simp [CartService.setSession, hsid]

/-- Expired context, stale id not in the authoritative list: recovery runs and
rebinds the session, then the ORIGINAL expired-context error is rethrown. -/
theorem updateItem_sf_expired_stale {now : Int} {sid itemId : Nat} (q : Nat) {s : SysState}
    {sess : SessionCart}
    (hsess : alistGet s.sessions sid = some sess) (hsid : sess.sessionId = sid)
    (hexp : SalesforceCartClient.getValidContext now s.client sess.sfContextId = none)
    (hnone : sess.items.find? (fun it => it.id == itemId) = none) :
    ∃ (c' : SfState) (newItems : List CartItem),
      CartService.updateItem sfClient now sid itemId q s =
        (.error (.client (.contextExpired sess.sfContextId)),
         { client := c'
           sessions := alistSet s.sessions sid
             { sess with sfContextId := s.client.nextContextId, lastAccessed := now }
           nextSessionId := s.nextSessionId }) ∧
      alistGet c'.contexts s.client.nextContextId =
        some { context := { id := s.client.nextContextId,
                            expiresAt := now + SalesforceCartClient.CONTEXT_EXPIRY_MS }
               items := newItems } ∧
      projItems newItems = projItems sess.items ∧
      (∀ k, k ≠ s.client.nextContextId →
        alistGet c'.contexts k = alistGet s.client.contexts k) ∧
      c'.nextContextId = s.client.nextContextId + 1 := by
  obtain ⟨c', newItems, hrec, hget, hproj, hids, hframe, hnext, hcount⟩ :=
    recoverContext_sf now { sess with lastAccessed := now } s.client
  refine ⟨c', newItems, ?_, hget, by simpa using hproj, hframe, by simpa using hnext⟩
  simp only [CartService.updateItem, hsess]
  rw [show (sfClient.updateItem :
        Int → Nat → Nat → Nat → SfState → Except ClientError Cart × SfState) =
      SalesforceCartClient.updateItem from rfl]
  rw [show (CartService.setSession s { sess with lastAccessed := now }).client = s.client
      from rfl]
  rw [updateItem_sf_expired_client itemId q hexp]
  simp only
  rw [hrec]
  simp only [CartService.setSession]
  rw [show ({ sess with lastAccessed := now, sfContextId := s.client.nextContextId } :
      SessionCart).items.find? (fun it => it.id == itemId) = none from hnone]
  simp [hsid, alistSet_set_self]

/-- Expired context, stale id present: recovery replays, the target is
re-resolved through its productId, and the FIRST item with that productId in
the recovered cart gets the new quantity. -/
theorem updateItem_sf_expired_found {now : Int} {sid itemId : Nat} (q : Nat) {s : SysState}
    {sess : SessionCart} {target : CartItem}
    (hsess : alistGet s.sessions sid = some sess) (hsid : sess.sessionId = sid)
    (hexp : SalesforceCartClient.getValidContext now s.client sess.sfContextId = none)
    (htarget : sess.items.find? (fun it => it.id == itemId) = some target) :
    ∃ (c'' : SfState) (updItems : List CartItem),
      CartService.updateItem sfClient now sid itemId q s =
        (.ok { id := .ofContext s.client.nextContextId
               items := updItems
               total := SalesforceCartClient.cartTotal updItems },
         { client := c''
           sessions := alistSet s.sessions sid
             { sess with
                 sfContextId := s.client.nextContextId
                 lastAccessed := now
                 items := updItems }
           nextSessionId := s.nextSessionId }) ∧
      projItems updItems =
        projItems (SalesforceCartClient.updateFirst
          (fun it => it.productId == target.productId)
          (fun it => { it with quantity := q }) sess.items) ∧
      alistGet c''.contexts s.client.nextContextId =
        some { context := { id := s.client.nextContextId,
                            expiresAt := now + SalesforceCartClient.CONTEXT_EXPIRY_MS }
               items := updItems } ∧
      (∀ k, k ≠ s.client.nextContextId →
        alistGet c''.contexts k = alistGet s.client.contexts k) ∧
      c''.nextContextId = s.client.nextContextId + 1 := by
  obtain ⟨c', newItems, hrec, hget, hproj, hids, hframe, hnext, hcount⟩ :=
    recoverContext_sf now { sess with lastAccessed := now } s.client
  have hproj' : projItems newItems = projItems sess.items := by simpa using hproj
  have hmem : target ∈ sess.items := List.mem_of_find?_eq_some htarget
  obtain ⟨newItem, hfindNew, hpid⟩ := exists_matching_productId hproj' hmem
  have hnodup : (newItems.map CartItem.id).Nodup := by
    rw [hids]
    exact idRange_nodup _ _
  have hmemNew : newItem ∈ newItems := List.mem_of_find?_eq_some hfindNew
  have hfindNewId : (newItems.find? (fun it => it.id == newItem.id)).isSome := by
    rw [List.find?_isSome]
    exact ⟨newItem, hmemNew, by simp⟩
  have hupd := updateFirst_id_of_find?_productId
    (fun it => { it with quantity := q }) hnodup hfindNew
  refine ⟨{ c' with
              contexts := alistSet c'.contexts s.client.nextContextId
                { context := { id := s.client.nextContextId,
                               expiresAt := now + SalesforceCartClient.CONTEXT_EXPIRY_MS }
                  items := SalesforceCartClient.updateFirst
                    (fun it => it.productId == target.productId)
                    (fun it => { it with quantity := q }) newItems } },
          SalesforceCartClient.updateFirst (fun it => it.productId == target.productId)
            (fun it => { it with quantity := q }) newItems, ?_,
          updateFirst_productId_proj hproj', ?_, ?_, ?_⟩
  · simp only [CartService.updateItem, hsess]
    rw [show (sfClient.updateItem :
          Int → Nat → Nat → Nat → SfState → Except ClientError Cart × SfState) =
        SalesforceCartClient.updateItem from rfl]
    rw [show (sfClient.getCart : Int → Nat → SfState → Except ClientError Cart × SfState) =
        SalesforceCartClient.getCart from rfl]
    rw [show (CartService.setSession s { sess with lastAccessed := now }).client = s.client
        from rfl]
    rw [updateItem_sf_expired_client itemId q hexp]
    simp only
    rw [hrec]
    simp only [CartService.setSession]
    rw [show ({ sess with lastAccessed := now, sfContextId := s.client.nextContextId } :
        SessionCart).items.find? (fun it => it.id == itemId) = some target from htarget]
    simp only
    rw [getCart_sf_ok hget (not_now_gt_fresh now)]
    simp only [SalesforceCartClient.buildCart]
    rw [hfindNew]
    simp only
    rw [updateItem_sf_ok q hget (not_now_gt_fresh now) hfindNewId]
    rw [hupd]
    simp [SalesforceCartClient.buildCart, hsid, alistSet_set_self]
  · simp [alistGet_set_self]
  · intro k hk
    rw [alistGet_set_ne _ _ _ _ hk]
    exact hframe k hk
  · simpa using hnext

/-! ## Preservation of the run invariant -/

theorem getValidContext_split (now : Int) (c : SfState) (ctxId : Nat) :
    SalesforceCartClient.getValidContext now c ctxId = none ∨
    ∃ d, alistGet c.contexts ctxId = some d ∧ ¬ now > d.context.expiresAt := by
  cases h : alistGet c.contexts ctxId with
  | none => exact Or.inl (getValidContext_of_unknown h)
  | some d =>
      by_cases hv : now > d.context.expiresAt
      · refine Or.inl ?_
        simp [SalesforceCartClient.getValidContext, h, hv]
      · exact Or.inr ⟨d, rfl, hv⟩

/-- The exact shape of the provider's validity check: expired means unknown
or STRICTLY past the horizon. -/
theorem getValidContext_eq_none_iff (now : Int) (c : SfState) (ctxId : Nat) :
    SalesforceCartClient.getValidContext now c ctxId = none ↔
      (alistGet c.contexts ctxId = none ∨
        ∃ d, alistGet c.contexts ctxId = some d ∧ now > d.context.expiresAt) := by
  constructor
  · intro h
    cases hc : alistGet c.contexts ctxId with
    | none => exact Or.inl rfl
    | some d =>
        by_cases hv : now > d.context.expiresAt
        · exact Or.inr ⟨d, rfl, hv⟩
        · rw [getValidContext_some hc hv] at h
          cases h
  · rintro (h | ⟨d, hd, hv⟩)
    · exact getValidContext_of_unknown h
    · simp [SalesforceCartClient.getValidContext, hd, hv]

/-- Touching only `lastAccessed` preserves the invariant. -/
theorem runInv_touch {now : Int} {s : SysState} {sid : Nat} {sess : SessionCart}
    (h : RunInv now s) (hs : alistGet s.sessions sid = some sess) :
    RunInv now
      { s with sessions := alistSet s.sessions sid { sess with lastAccessed := now } } := by
  have hsid := h.sid_eq sid sess hs
  constructor
  · intro sid' sess' hs'
    by_cases he : sid' = sid
    · subst he
      rw [alistGet_set_self] at hs'
      cases hs'
      exact hsid
    · rw [alistGet_set_ne _ _ _ _ he] at hs'
      exact h.sid_eq sid' sess' hs'
  · exact h.ctx_id
  · intro sid' sess' d hs' hd hv
    by_cases he : sid' = sid
    · subst he
      rw [alistGet_set_self] at hs'
      cases hs'
      exact h.ctx _ sess d hs hd hv
    · rw [alistGet_set_ne _ _ _ _ he] at hs'
      exact h.ctx sid' sess' d hs' hd hv
  · intro sid' sess' hs'
    by_cases he : sid' = sid
    · subst he
      rw [alistGet_set_self] at hs'
      cases hs'
      exact h.fresh _ sess hs
    · rw [alistGet_set_ne _ _ _ _ he] at hs'
      exact h.fresh sid' sess' hs'
  · intro sid₁ sid₂ sess₁ sess₂ hs₁ hs₂ hctx
    by_cases he₁ : sid₁ = sid <;> by_cases he₂ : sid₂ = sid
    · rw [he₁, he₂]
    · subst he₁
      rw [alistGet_set_self] at hs₁
      cases hs₁
      rw [alistGet_set_ne _ _ _ _ he₂] at hs₂
      exact h.distinct _ sid₂ sess sess₂ hs hs₂ hctx
    · subst he₂
      rw [alistGet_set_self] at hs₂
      cases hs₂
      rw [alistGet_set_ne _ _ _ _ he₁] at hs₁
      exact h.distinct sid₁ _ sess₁ sess hs₁ hs hctx
    · rw [alistGet_set_ne _ _ _ _ he₁] at hs₁
      rw [alistGet_set_ne _ _ _ _ he₂] at hs₂
      exact h.distinct sid₁ sid₂ sess₁ sess₂ hs₁ hs₂ hctx

/-- Editing the session's own valid context and re-synchronizing
`Session.items` with its exact item list preserves the invariant. -/
theorem runInv_sync {now : Int} {s : SysState} {sid : Nat} {sess : SessionCart}
    {d : ContextData} {cl' : SfState} {L : List CartItem}
    (h : RunInv now s)
    (hs : alistGet s.sessions sid = some sess)
    (hd : alistGet s.client.contexts sess.sfContextId = some d)
    (hclc : cl'.contexts = alistSet s.client.contexts sess.sfContextId { d with items := L })
    (hcln : cl'.nextContextId = s.client.nextContextId) :
    RunInv now
      { client := cl'
        sessions := alistSet s.sessions sid { sess with lastAccessed := now, items := L }
        nextSessionId := s.nextSessionId } := by
  have hsid := h.sid_eq sid sess hs
  constructor
  · intro sid' sess' hs'
    by_cases he : sid' = sid
    · subst he
      rw [alistGet_set_self] at hs'
      cases hs'
      exact hsid
    · rw [alistGet_set_ne _ _ _ _ he] at hs'
      exact h.sid_eq sid' sess' hs'
  · intro cid dd hdd
    rw [hclc] at hdd
    by_cases he : cid = sess.sfContextId
    · subst he
      rw [alistGet_set_self] at hdd
      cases hdd
      exact h.ctx_id _ d hd
    · rw [alistGet_set_ne _ _ _ _ he] at hdd
      exact h.ctx_id _ dd hdd
  · intro sid' sess' dd hs' hdd hv
    rw [hclc] at hdd
    by_cases he : sid' = sid
    · subst he
      rw [alistGet_set_self] at hs'
      cases hs'
      rw [show ({ sess with lastAccessed := now, items := L } :
          SessionCart).sfContextId = sess.sfContextId from rfl] at hdd
      rw [alistGet_set_self] at hdd
      cases hdd
      rfl
    · rw [alistGet_set_ne _ _ _ _ he] at hs'
      have hne : sess'.sfContextId ≠ sess.sfContextId := by
        intro heq
        exact he (h.distinct _ _ sess' sess hs' hs heq)
      rw [alistGet_set_ne _ _ _ _ hne] at hdd
      exact h.ctx _ sess' dd hs' hdd hv
  · intro sid' sess' hs'
    rw [hcln]
    by_cases he : sid' = sid
    · subst he
      rw [alistGet_set_self] at hs'
      cases hs'
      exact h.fresh _ sess hs
    · rw [alistGet_set_ne _ _ _ _ he] at hs'
      exact h.fresh _ sess' hs'
  · intro sid₁ sid₂ sess₁ sess₂ hs₁ hs₂ hctx
    by_cases he₁ : sid₁ = sid <;> by_cases he₂ : sid₂ = sid
    · rw [he₁, he₂]
    · subst he₁
      rw [alistGet_set_self] at hs₁
      cases hs₁
      rw [alistGet_set_ne _ _ _ _ he₂] at hs₂
      exact h.distinct _ sid₂ sess sess₂ hs hs₂ hctx
    · subst he₂
      rw [alistGet_set_self] at hs₂
      cases hs₂
      rw [alistGet_set_ne _ _ _ _ he₁] at hs₁
      exact h.distinct sid₁ _ sess₁ sess hs₁ hs hctx
    · rw [alistGet_set_ne _ _ _ _ he₁] at hs₁
      rw [alistGet_set_ne _ _ _ _ he₂] at hs₂
      exact h.distinct sid₁ sid₂ sess₁ sess₂ hs₁ hs₂ hctx

/-- Rebinding the session to the freshly created context (after a successful
recovery) preserves the invariant, whether or not the items were re-synced,
as long as `Session.items` mirrors the new context up to identity. -/
theorem runInv_recover {now : Int} {s : SysState} {sid : Nat} {sess : SessionCart}
    {c2 : SfState} {ctxItems sessItems : List CartItem}
    (h : RunInv now s)
    (hs : alistGet s.sessions sid = some sess)
    (hget : alistGet c2.contexts s.client.nextContextId =
      some { context := { id := s.client.nextContextId,
                          expiresAt := now + SalesforceCartClient.CONTEXT_EXPIRY_MS }
             items := ctxItems })
    (hframe : ∀ k, k ≠ s.client.nextContextId →
      alistGet c2.contexts k = alistGet s.client.contexts k)
    (hnext : c2.nextContextId = s.client.nextContextId + 1)
    (hpr : projItems ctxItems = projItems sessItems) :
    RunInv now
      { client := c2
        sessions := alistSet s.sessions sid
          { sess with sfContextId := s.client.nextContextId, lastAccessed := now, items := sessItems }
        nextSessionId := s.nextSessionId } := by
  have hsid := h.sid_eq sid sess hs
  constructor
  · intro sid' sess' hs'
    by_cases he : sid' = sid
    · subst he
      rw [alistGet_set_self] at hs'
      cases hs'
      exact hsid
    · rw [alistGet_set_ne _ _ _ _ he] at hs'
      exact h.sid_eq sid' sess' hs'
  · intro cid dd hdd
    by_cases he : cid = s.client.nextContextId
    · subst he
      rw [hget] at hdd
      cases hdd
      rfl
    · rw [hframe cid he] at hdd
      exact h.ctx_id _ dd hdd
  · intro sid' sess' dd hs' hdd hv
    by_cases he : sid' = sid
    · subst he
      rw [alistGet_set_self] at hs'
      cases hs'
      have hdd' : alistGet c2.contexts s.client.nextContextId = some dd := hdd
      rw [hget] at hdd'
      cases hdd'
      exact hpr
    · rw [alistGet_set_ne _ _ _ _ he] at hs'
      have hlt := h.fresh _ sess' hs'
      have hne : sess'.sfContextId ≠ s.client.nextContextId := by omega
      rw [hframe _ hne] at hdd
      exact h.ctx _ sess' dd hs' hdd hv
  · intro sid' sess' hs'
    rw [hnext]
    by_cases he : sid' = sid
    · subst he
      rw [alistGet_set_self] at hs'
      cases hs'
      show s.client.nextContextId < s.client.nextContextId + 1
      omega
    · rw [alistGet_set_ne _ _ _ _ he] at hs'
      have := h.fresh _ sess' hs'
      omega
  · intro sid₁ sid₂ sess₁ sess₂ hs₁ hs₂ hctx
    by_cases he₁ : sid₁ = sid <;> by_cases he₂ : sid₂ = sid
    · rw [he₁, he₂]
    · subst he₁
      rw [alistGet_set_self] at hs₁
      cases hs₁
      rw [alistGet_set_ne _ _ _ _ he₂] at hs₂
      have hctx' : s.client.nextContextId = sess₂.sfContextId := hctx
      have := h.fresh _ sess₂ hs₂
      omega
    · subst he₂
      rw [alistGet_set_self] at hs₂
      cases hs₂
      rw [alistGet_set_ne _ _ _ _ he₁] at hs₁
      have hctx' : sess₁.sfContextId = s.client.nextContextId := hctx
      have := h.fresh _ sess₁ hs₁
      omega
    · rw [alistGet_set_ne _ _ _ _ he₁] at hs₁
      rw [alistGet_set_ne _ _ _ _ he₂] at hs₂
      exact h.distinct sid₁ sid₂ sess₁ sess₂ hs₁ hs₂ hctx

/-- `createCart` preserves the invariant. -/
theorem runInv_create {now : Int} {s : SysState} (h : RunInv now s) :
    RunInv now (CartService.createCart sfClient now s).2 := by
  rw [createCart_sf]
  constructor
  · intro sid' sess' hs'
    by_cases he : sid' = s.nextSessionId
    · subst he
      have hs'' :
          alistGet (alistSet s.sessions s.nextSessionId
            { sessionId := s.nextSessionId, sfContextId := s.client.nextContextId,
              items := [], createdAt := now, lastAccessed := now }) s.nextSessionId =
          some sess' := hs'
      rw [alistGet_set_self] at hs''
      cases hs''
      rfl
    · have hs'' := hs'
      rw [show ((.ok (s.nextSessionId,
          { id := .ofSession s.nextSessionId, items := [], total := 0 }) :
          Except CartError (Nat × Cart)),
          ({ client :=
              { contexts := alistSet s.client.contexts s.client.nextContextId
                  { context := { id := s.client.nextContextId,
                                 expiresAt := now + SalesforceCartClient.CONTEXT_EXPIRY_MS }
                    items := [] }
                nextContextId := s.client.nextContextId + 1
                itemCounter := s.client.itemCounter }
             sessions := alistSet s.sessions s.nextSessionId
               { sessionId := s.nextSessionId
                 sfContextId := s.client.nextContextId
                 items := []
                 createdAt := now
                 lastAccessed := now }
             nextSessionId := s.nextSessionId + 1 } : SysState)).2.sessions =
          alistSet s.sessions s.nextSessionId
            { sessionId := s.nextSessionId, sfContextId := s.client.nextContextId,
              items := [], createdAt := now, lastAccessed := now } from rfl] at hs''
      rw [alistGet_set_ne _ _ _ _ he] at hs''
      exact h.sid_eq sid' sess' hs''
  · intro cid dd hdd
    by_cases he : cid = s.client.nextContextId
    · subst he
      have hdd' :
          alistGet (alistSet s.client.contexts s.client.nextContextId
            { context := { id := s.client.nextContextId,
                           expiresAt := now + SalesforceCartClient.CONTEXT_EXPIRY_MS }
              items := [] }) s.client.nextContextId = some dd := hdd
      rw [alistGet_set_self] at hdd'
      cases hdd'
      rfl
    · have hdd' :
          alistGet (alistSet s.client.contexts s.client.nextContextId
            { context := { id := s.client.nextContextId,
                           expiresAt := now + SalesforceCartClient.CONTEXT_EXPIRY_MS }
              items := [] }) cid = some dd := hdd
      rw [alistGet_set_ne _ _ _ _ he] at hdd'
      exact h.ctx_id _ dd hdd'
  · intro sid' sess' dd hs' hdd hv
    by_cases he : sid' = s.nextSessionId
    · subst he
      have hs'' :
          alistGet (alistSet s.sessions s.nextSessionId
            { sessionId := s.nextSessionId, sfContextId := s.client.nextContextId,
              items := [], createdAt := now, lastAccessed := now }) s.nextSessionId =
          some sess' := hs'
      rw [alistGet_set_self] at hs''
      cases hs''
      have hdd' :
          alistGet (alistSet s.client.contexts s.client.nextContextId
            { context := { id := s.client.nextContextId,
                           expiresAt := now + SalesforceCartClient.CONTEXT_EXPIRY_MS }
              items := [] }) s.client.nextContextId = some dd := hdd
      rw [alistGet_set_self] at hdd'
      cases hdd'
      rfl
    · have hs'' :
          alistGet (alistSet s.sessions s.nextSessionId
            { sessionId := s.nextSessionId, sfContextId := s.client.nextContextId,
              items := [], createdAt := now, lastAccessed := now }) sid' =
          some sess' := hs'
      rw [alistGet_set_ne _ _ _ _ he] at hs''
      have hlt := h.fresh _ sess' hs''
      have hne : sess'.sfContextId ≠ s.client.nextContextId := by omega
      have hdd' :
          alistGet (alistSet s.client.contexts s.client.nextContextId
            { context := { id := s.client.nextContextId,
                           expiresAt := now + SalesforceCartClient.CONTEXT_EXPIRY_MS }
              items := [] }) sess'.sfContextId = some dd := hdd
      rw [alistGet_set_ne _ _ _ _ hne] at hdd'
      exact h.ctx _ sess' dd hs'' hdd' hv
  · intro sid' sess' hs'
    show sess'.sfContextId < s.client.nextContextId + 1
    by_cases he : sid' = s.nextSessionId
    · subst he
      have hs'' :
          alistGet (alistSet s.sessions s.nextSessionId
            { sessionId := s.nextSessionId, sfContextId := s.client.nextContextId,
              items := [], createdAt := now, lastAccessed := now }) s.nextSessionId =
          some sess' := hs'
      rw [alistGet_set_self] at hs''
      cases hs''
      show s.client.nextContextId < s.client.nextContextId + 1
      omega
    · have hs'' :
          alistGet (alistSet s.sessions s.nextSessionId
            { sessionId := s.nextSessionId, sfContextId := s.client.nextContextId,
              items := [], createdAt := now, lastAccessed := now }) sid' =
          some sess' := hs'
      rw [alistGet_set_ne _ _ _ _ he] at hs''
      have := h.fresh _ sess' hs''
      omega
  · intro sid₁ sid₂ sess₁ sess₂ hs₁ hs₂ hctx
    have hs₁' :
        alistGet (alistSet s.sessions s.nextSessionId
          { sessionId := s.nextSessionId, sfContextId := s.client.nextContextId,
            items := [], createdAt := now, lastAccessed := now }) sid₁ = some sess₁ := hs₁
    have hs₂' :
        alistGet (alistSet s.sessions s.nextSessionId
          { sessionId := s.nextSessionId, sfContextId := s.client.nextContextId,
            items := [], createdAt := now, lastAccessed := now }) sid₂ = some sess₂ := hs₂
    by_cases he₁ : sid₁ = s.nextSessionId <;> by_cases he₂ : sid₂ = s.nextSessionId
    · rw [he₁, he₂]
    · subst he₁
      rw [alistGet_set_self] at hs₁'
      cases hs₁'
      rw [alistGet_set_ne _ _ _ _ he₂] at hs₂'
      have hctx' : s.client.nextContextId = sess₂.sfContextId := hctx
      have := h.fresh _ sess₂ hs₂'
      omega
    · subst he₂
      rw [alistGet_set_self] at hs₂'
      cases hs₂'
      rw [alistGet_set_ne _ _ _ _ he₁] at hs₁'
      have hctx' : sess₁.sfContextId = s.client.nextContextId := hctx
      have := h.fresh _ sess₁ hs₁'
      omega
    · rw [alistGet_set_ne _ _ _ _ he₁] at hs₁'
      rw [alistGet_set_ne _ _ _ _ he₂] at hs₂'
      exact h.distinct sid₁ sid₂ sess₁ sess₂ hs₁' hs₂' hctx

/-- An induced expiry preserves the invariant (it can only invalidate a
context, never break the mirror property of a valid one). -/
theorem runInv_expire {now : Int} {s : SysState} (sid : Nat) (h : RunInv now s) :
    RunInv now (runOp now (.expire sid) s).2 := by
  show RunInv now
    (match alistGet s.sessions sid with
     | none => s
     | some sess =>
         { s with client := SalesforceCartClient.expireContext now sess.sfContextId s.client })
  cases hsess : alistGet s.sessions sid with
  | none => exact h
  | some sess =>
      show RunInv now
        { s with client := SalesforceCartClient.expireContext now sess.sfContextId s.client }
      unfold SalesforceCartClient.expireContext
      cases hd : alistGet s.client.contexts sess.sfContextId with
      | none => exact h
      | some d =>
          constructor
          · exact h.sid_eq
          · intro cid dd hdd
            by_cases he : cid = sess.sfContextId
            · subst he
              have hdd' :
                  alistGet (alistSet s.client.contexts sess.sfContextId
                    { d with context := { d.context with expiresAt := now - 1000 } })
                    sess.sfContextId = some dd := hdd
              rw [alistGet_set_self] at hdd'
              cases hdd'
              exact h.ctx_id _ d hd
            · have hdd' :
                  alistGet (alistSet s.client.contexts sess.sfContextId
                    { d with context := { d.context with expiresAt := now - 1000 } })
                    cid = some dd := hdd
              rw [alistGet_set_ne _ _ _ _ he] at hdd'
              exact h.ctx_id _ dd hdd'
          · intro sid' sess' dd hs' hdd hv
            by_cases he : sess'.sfContextId = sess.sfContextId
            · have hdd' :
                  alistGet (alistSet s.client.contexts sess.sfContextId
                    { d with context := { d.context with expiresAt := now - 1000 } })
                    sess'.sfContextId = some dd := hdd
              rw [he, alistGet_set_self] at hdd'
              cases hdd'
              exfalso
              apply hv
              show now > now - 1000
              omega
            · have hdd' :
                  alistGet (alistSet s.client.contexts sess.sfContextId
                    { d with context := { d.context with expiresAt := now - 1000 } })
                    sess'.sfContextId = some dd := hdd
              rw [alistGet_set_ne _ _ _ _ he] at hdd'
              exact h.ctx _ sess' dd hs' hdd' hv
          · exact h.fresh
          · exact h.distinct

theorem cartTotal_congr {l₁ l₂ : List CartItem} (h : projItems l₁ = projItems l₂) :
    SalesforceCartClient.cartTotal l₁ = SalesforceCartClient.cartTotal l₂ := by
  rw [cartTotal_proj, cartTotal_proj, h]

/-- What one `createCart` step preserves and guarantees. -/
theorem runOp_pres_create {now : Int} {s : SysState} (h : RunInv now s) :
    RunInv now (runOp now .createCart s).2 ∧
    ∀ cart, (runOp now .createCart s).1 = some (.ok cart) →
      cart.total = SalesforceCartClient.cartTotal cart.items ∧
      ∃ sess, alistGet (runOp now .createCart s).2.sessions (opSessionId .createCart s) =
          some sess ∧ cart.total = SalesforceCartClient.cartTotal sess.items := by
  have hinv := @runInv_create now s h
  constructor
  · show RunInv now
      (match CartService.createCart sfClient now s with
       | (Except.ok (_, cart), s') => (some (Except.ok cart), s')
       | (Except.error e, s') => (some (Except.error e), s')).2
    rw [createCart_sf]
    rw [createCart_sf] at hinv
    exact hinv
  · intro cart hcart
    have hcart' :
        (match CartService.createCart sfClient now s with
         | (Except.ok (_, cart), s') => (some (Except.ok cart), s')
         | (Except.error e, s') => (some (Except.error e), s')).1 =
          some (Except.ok cart) := hcart
    rw [createCart_sf] at hcart'
    simp only at hcart'
    cases hcart'
    refine ⟨rfl, ?_⟩
    refine ⟨{ sessionId := s.nextSessionId, sfContextId := s.client.nextContextId,
              items := [], createdAt := now, lastAccessed := now }, ?_, rfl⟩
    show alistGet
      (match CartService.createCart sfClient now s with
       | (Except.ok (_, cart), s') => (some (Except.ok cart), s')
       | (Except.error e, s') => (some (Except.error e), s')).2.sessions s.nextSessionId = _
    rw [createCart_sf]
    exact alistGet_set_self _ _ _

/-- What one `getCart` step preserves and guarantees. -/
theorem runOp_pres_get {now : Int} {s : SysState} (sid : Nat) (h : RunInv now s) :
    RunInv now (runOp now (.getCart sid) s).2 ∧
    ∀ cart, (runOp now (.getCart sid) s).1 = some (.ok cart) →
      cart.total = SalesforceCartClient.cartTotal cart.items ∧
      ∃ sess, alistGet (runOp now (.getCart sid) s).2.sessions (opSessionId (.getCart sid) s) =
          some sess ∧ cart.total = SalesforceCartClient.cartTotal sess.items := by
  have hrun : runOp now (.getCart sid) s =
      (some (CartService.getCart sfClient now sid s).1,
       (CartService.getCart sfClient now sid s).2) := rfl
  cases hsess : alistGet s.sessions sid with
  | none =>
      rw [hrun, getCart_notFound sfClient now sid s hsess]
      exact ⟨h, by intro cart hcart; simp at hcart⟩
  | some sess =>
      have hsid := h.sid_eq sid sess hsess
      rcases getValidContext_split now s.client sess.sfContextId with hexp | ⟨d, hd, hv⟩
      · obtain ⟨c', newItems, heq, hget, hproj, hids, hframe, hnext, hcount⟩ :=
          getCart_sf_expired hsess hsid hexp
        rw [hrun, heq]
        constructor
        · exact runInv_recover h hsess hget hframe hnext hproj
        · intro cart hcart
          simp only at hcart
          cases hcart
          refine ⟨rfl, ?_⟩
          refine ⟨{ sess with sfContextId := s.client.nextContextId, lastAccessed := now },
            ?_, ?_⟩
          · exact alistGet_set_self _ _ _
          · exact cartTotal_congr hproj
      · rw [hrun, getCart_sf_valid hsess hsid hd hv]
        constructor
        · exact runInv_touch h hsess
        · intro cart hcart
          simp only at hcart
          cases hcart
          refine ⟨rfl, ?_⟩
          refine ⟨{ sess with lastAccessed := now }, alistGet_set_self _ _ _, ?_⟩
          show SalesforceCartClient.cartTotal d.items = SalesforceCartClient.cartTotal sess.items
          exact cartTotal_congr (h.ctx _ sess d hsess hd hv)

/-- What one induced expiry preserves (no caller-visible output). -/
theorem runOp_pres_expire {now : Int} {s : SysState} (sid : Nat) (h : RunInv now s) :
    RunInv now (runOp now (.expire sid) s).2 ∧
    ∀ cart, (runOp now (.expire sid) s).1 = some (.ok cart) →
      cart.total = SalesforceCartClient.cartTotal cart.items ∧
      ∃ sess, alistGet (runOp now (.expire sid) s).2.sessions (opSessionId (.expire sid) s) =
          some sess ∧ cart.total = SalesforceCartClient.cartTotal sess.items := by
  refine ⟨runInv_expire sid h, ?_⟩
  intro cart hcart
  exact Option.noConfusion hcart

/-- What one `addItem` step preserves and guarantees. -/
theorem runOp_pres_add {now : Int} {s : SysState} (sid : Nat) (input : CartItemInput)
    (h : RunInv now s) :
    RunInv now (runOp now (.addItem sid input) s).2 ∧
    ∀ cart, (runOp now (.addItem sid input) s).1 = some (.ok cart) →
      cart.total = SalesforceCartClient.cartTotal cart.items ∧
      ∃ sess, alistGet (runOp now (.addItem sid input) s).2.sessions
          (opSessionId (.addItem sid input) s) = some sess ∧
        cart.total = SalesforceCartClient.cartTotal sess.items := by
  have hrun : runOp now (.addItem sid input) s =
      (some (CartService.addItem sfClient now sid input s).1,
       (CartService.addItem sfClient now sid input s).2) := rfl
  cases hsess : alistGet s.sessions sid with
  | none =>
      rw [hrun, addItem_notFound sfClient now sid input s hsess]
      exact ⟨h, by intro cart hcart; simp at hcart⟩
  | some sess =>
      have hsid := h.sid_eq sid sess hsess
      rcases getValidContext_split now s.client sess.sfContextId with hexp | ⟨d, hd, hv⟩
      · obtain ⟨c'', fullItems, heq, hproj, hget, hframe, hnext⟩ :=
          addItem_sf_expired input hsess hsid hexp
        rw [hrun, heq]
        constructor
        · exact runInv_recover h hsess hget hframe hnext rfl
        · intro cart hcart
          simp only at hcart
          cases hcart
          refine ⟨rfl, ?_⟩
          refine ⟨{ sess with
            sfContextId := s.client.nextContextId
            lastAccessed := now
            items := fullItems }, alistGet_set_self _ _ _, rfl⟩
      · rw [hrun, addItem_sf_valid input hsess hsid hd hv]
        constructor
        · exact runInv_sync h hsess hd rfl rfl
        · intro cart hcart
          simp only at hcart
          cases hcart
          refine ⟨rfl, ?_⟩
          refine ⟨{ sess with
            lastAccessed := now
            items := d.items ++ [newCartItem s.client.itemCounter input] },
            alistGet_set_self _ _ _, rfl⟩

/-- What one `removeItem` step preserves and guarantees. -/
theorem runOp_pres_remove {now : Int} {s : SysState} (sid itemId : Nat) (h : RunInv now s) :
    RunInv now (runOp now (.removeItem sid itemId) s).2 ∧
    ∀ cart, (runOp now (.removeItem sid itemId) s).1 = some (.ok cart) →
      cart.total = SalesforceCartClient.cartTotal cart.items ∧
      ∃ sess, alistGet (runOp now (.removeItem sid itemId) s).2.sessions
          (opSessionId (.removeItem sid itemId) s) = some sess ∧
        cart.total = SalesforceCartClient.cartTotal sess.items := by
  have hrun : runOp now (.removeItem sid itemId) s =
      (some (CartService.removeItem sfClient now sid itemId s).1,
       (CartService.removeItem sfClient now sid itemId s).2) := rfl
  cases hsess : alistGet s.sessions sid with
  | none =>
      rw [hrun, removeItem_notFound sfClient now sid itemId s hsess]
      exact ⟨h, by intro cart hcart; simp at hcart⟩
  | some sess =>
      have hsid := h.sid_eq sid sess hsess
      rcases getValidContext_split now s.client sess.sfContextId with hexp | ⟨d, hd, hv⟩
      · cases hstale : sess.items.find? (fun it => it.id == itemId) with
        | none =>
            obtain ⟨c', newItems, heq, hget, hproj, hframe, hnext⟩ :=
              removeItem_sf_expired_stale hsess hsid hexp hstale
            rw [hrun, heq]
            refine ⟨runInv_recover h hsess hget hframe hnext hproj, ?_⟩
            intro cart hcart
            simp at hcart
        | some target =>
            obtain ⟨c'', restItems, heq, hproj, hget, hframe, hnext⟩ :=
              removeItem_sf_expired_found hsess hsid hexp hstale
            rw [hrun, heq]
            constructor
            · exact runInv_recover h hsess hget hframe hnext rfl
            · intro cart hcart
              simp only at hcart
              cases hcart
              refine ⟨rfl, ?_⟩
              refine ⟨{ sess with
                sfContextId := s.client.nextContextId
                lastAccessed := now
                items := restItems }, alistGet_set_self _ _ _, rfl⟩
      · cases hfind : d.items.find? (fun it => it.id == itemId) with
        | none =>
            rw [hrun, removeItem_sf_valid_missing hsess hsid hd hv hfind]
            refine ⟨runInv_touch h hsess, ?_⟩
            intro cart hcart
            simp at hcart
        | some x =>
            rw [hrun, removeItem_sf_valid_found hsess hsid hd hv (by rw [hfind]; rfl)]
            constructor
            · exact runInv_sync h hsess hd rfl rfl
            · intro cart hcart
              simp only at hcart
              cases hcart
              refine ⟨rfl, ?_⟩
              refine ⟨{ sess with
                lastAccessed := now
                items := d.items.eraseP (fun it => it.id == itemId) },
                alistGet_set_self _ _ _, rfl⟩

/-- What one `updateItem` step preserves and guarantees. -/
theorem runOp_pres_update {now : Int} {s : SysState} (sid itemId q : Nat) (h : RunInv now s) :
    RunInv now (runOp now (.updateItem sid itemId q) s).2 ∧
    ∀ cart, (runOp now (.updateItem sid itemId q) s).1 = some (.ok cart) →
      cart.total = SalesforceCartClient.cartTotal cart.items ∧
      ∃ sess, alistGet (runOp now (.updateItem sid itemId q) s).2.sessions
          (opSessionId (.updateItem sid itemId q) s) = some sess ∧
        cart.total = SalesforceCartClient.cartTotal sess.items := by
  have hrun : runOp now (.updateItem sid itemId q) s =
      (some (CartService.updateItem sfClient now sid itemId q s).1,
       (CartService.updateItem sfClient now sid itemId q s).2) := rfl
  cases hsess : alistGet s.sessions sid with
  | none =>
      rw [hrun, updateItem_notFound sfClient now sid itemId q s hsess]
      exact ⟨h, by intro cart hcart; simp at hcart⟩
  | some sess =>
      have hsid := h.sid_eq sid sess hsess
      rcases getValidContext_split now s.client sess.sfContextId with hexp | ⟨d, hd, hv⟩
      · cases hstale : sess.items.find? (fun it => it.id == itemId) with
        | none =>
            obtain ⟨c', newItems, heq, hget, hproj, hframe, hnext⟩ :=
              updateItem_sf_expired_stale q hsess hsid hexp hstale
            rw [hrun, heq]
            refine ⟨runInv_recover h hsess hget hframe hnext hproj, ?_⟩
            intro cart hcart
            simp at hcart
        | some target =>
            obtain ⟨c'', updItems, heq, hproj, hget, hframe, hnext⟩ :=
              updateItem_sf_expired_found q hsess hsid hexp hstale
            rw [hrun, heq]
            constructor
            · exact runInv_recover h hsess hget hframe hnext rfl
            · intro cart hcart
              simp only at hcart
              cases hcart
              refine ⟨rfl, ?_⟩
              refine ⟨{ sess with
                sfContextId := s.client.nextContextId
                lastAccessed := now
                items := updItems }, alistGet_set_self _ _ _, rfl⟩
      · cases hfind : d.items.find? (fun it => it.id == itemId) with
        | none =>
            rw [hrun, updateItem_sf_valid_missing q hsess hsid hd hv hfind]
            refine ⟨runInv_touch h hsess, ?_⟩
            intro cart hcart
            simp at hcart
        | some x =>
            rw [hrun, updateItem_sf_valid_found q hsess hsid hd hv (by rw [hfind]; rfl)]
            constructor
            · exact runInv_sync h hsess hd rfl rfl
            · intro cart hcart
              simp only at hcart
              cases hcart
              refine ⟨rfl, ?_⟩
              refine ⟨{ sess with
                lastAccessed := now
                items := SalesforceCartClient.updateFirst (fun it => it.id == itemId)
                  (fun it => { it with quantity := q }) d.items },
                alistGet_set_self _ _ _, rfl⟩

/-- Every step with the real provider preserves the invariant, and every
caller-visible successful cart's total is `Σ price × quantity` over both its
own items and the (post-state) authoritative session items. -/
theorem runOp_preserves (now : Int) (op : TraceOp) (s : SysState) (h : RunInv now s) :
    RunInv now (runOp now op s).2 ∧
    ∀ cart, (runOp now op s).1 = some (.ok cart) →
      cart.total = SalesforceCartClient.cartTotal cart.items ∧
      ∃ sess, alistGet (runOp now op s).2.sessions (opSessionId op s) = some sess ∧
        cart.total = SalesforceCartClient.cartTotal sess.items := by
  cases op with
  | createCart => exact runOp_pres_create h
  | getCart sid => exact runOp_pres_get sid h
  | addItem sid input => exact runOp_pres_add sid input h
  | removeItem sid itemId => exact runOp_pres_remove sid itemId h
  | updateItem sid itemId q => exact runOp_pres_update sid itemId q h
  | expire sid => exact runOp_pres_expire sid h

/-! ## Refinement of the simple fragment into the abstract machine -/

theorem rsim_keys_none {s : SysState} {a : AbsState}
    (hkeys : s.sessions.map Prod.fst = a.sessions.map Prod.fst) {sid : Nat}
    (h : alistGet s.sessions sid = none) : alistGet a.sessions sid = none := by
  rw [alistGet_eq_none_iff] at h ⊢
  rw [← hkeys]
  exact h

theorem visible_mk (i : CartId) (L : List CartItem) :
    visibleOfCart { id := i, items := L, total := SalesforceCartClient.cartTotal L } =
      absView (projItems L) := by
  simp [visibleOfCart, absView, cartTotal_proj, projItems, List.map_map]
  intro a _
  exact ⟨rfl, rfl⟩

theorem projItems_snoc_new (L : List CartItem) (n : Nat) (input : CartItemInput) :
    projItems (L ++ [newCartItem n input]) = projItems L ++ [projInput input] := by
  rw [projItems_append]
  rfl

theorem keys_set_congr {α β : Type} {l₁ : List (Nat × α)} {l₂ : List (Nat × β)}
    (h : l₁.map Prod.fst = l₂.map Prod.fst) (k : Nat) (v₁ : α) (v₂ : β) :
    (alistSet l₁ k v₁).map Prod.fst = (alistSet l₂ k v₂).map Prod.fst := by
  rw [keys_alistSet, keys_alistSet, h]

theorem keys_set_mem {α : Type} {l : List (Nat × α)} {k : Nat}
    (h : k ∈ l.map Prod.fst) (v : α) :
    (alistSet l k v).map Prod.fst = l.map Prod.fst := by
  rw [keys_alistSet, if_pos h]

theorem rsim_items_set {rs : List (Nat × SessionCart)} {as : List (Nat × List ProjItem)}
    (hitems : ∀ sid sess, alistGet rs sid = some sess →
      alistGet as sid = some (projItems sess.items))
    (k : Nat) (sessN : SessionCart) (plN : List ProjItem)
    (hn : projItems sessN.items = plN) :
    ∀ sid sess, alistGet (alistSet rs k sessN) sid = some sess →
      alistGet (alistSet as k plN) sid = some (projItems sess.items) := by
  intro sid sess hs
  by_cases he : sid = k
  · subst he
    rw [alistGet_set_self] at hs
    cases hs
    rw [alistGet_set_self, hn]
  · rw [alistGet_set_ne _ _ _ _ he] at hs
    rw [alistGet_set_ne _ _ _ _ he]
    exact hitems _ _ hs

theorem rsim_items_set_left {rs : List (Nat × SessionCart)}
    {as : List (Nat × List ProjItem)}
    (hitems : ∀ sid sess, alistGet rs sid = some sess →
      alistGet as sid = some (projItems sess.items))
    (k : Nat) (sessN : SessionCart)
    (hk : alistGet as k = some (projItems sessN.items)) :
    ∀ sid sess, alistGet (alistSet rs k sessN) sid = some sess →
      alistGet as sid = some (projItems sess.items) := by
  intro sid sess hs
  by_cases he : sid = k
  · subst he
    rw [alistGet_set_self] at hs
    cases hs
    exact hk
  · rw [alistGet_set_ne _ _ _ _ he] at hs
    exact hitems _ _ hs

theorem map_visibleOf_ok (c : Cart) :
    (some (Except.ok c) : Option (Except CartError Cart)).map visibleOf =
      some (Except.ok (visibleOfCart c)) := rfl

theorem map_visibleOf_error (e : CartError) :
    (some (Except.error e) : Option (Except CartError Cart)).map visibleOf =
      some (Except.error e) := rfl

theorem runOp_expire_state (now : Int) (sid : Nat) (s : SysState) :
    (runOp now (.expire sid) s).1 = none ∧
    (runOp now (.expire sid) s).2.sessions = s.sessions ∧
    (runOp now (.expire sid) s).2.nextSessionId = s.nextSessionId := by
  have hrun : runOp now (.expire sid) s =
      (none,
       match alistGet s.sessions sid with
       | none => s
       | some sess =>
           { s with
               client := SalesforceCartClient.expireContext now sess.sfContextId s.client }) :=
    rfl
  rw [hrun]
  cases alistGet s.sessions sid <;> exact ⟨rfl, rfl, rfl⟩

/-- One `createCart` step refines the abstract machine. -/
theorem rsim_step_create {now : Int} {s : SysState} {a : AbsState} (h : RSim now s a) :
    ((runOp now .createCart s).1).map visibleOf = (absRunOp .createCart a).1 ∧
    RSim now (runOp now .createCart s).2 (absRunOp .createCart a).2 := by
  have hrun : runOp now .createCart s =
      (some (.ok { id := .ofSession s.nextSessionId, items := [], total := 0 }),
       { client :=
           { contexts := alistSet s.client.contexts s.client.nextContextId
               { context := { id := s.client.nextContextId,
                              expiresAt := now + SalesforceCartClient.CONTEXT_EXPIRY_MS }
                 items := [] }
             nextContextId := s.client.nextContextId + 1
             itemCounter := s.client.itemCounter }
         sessions := alistSet s.sessions s.nextSessionId
           { sessionId := s.nextSessionId
             sfContextId := s.client.nextContextId
             items := []
             createdAt := now
             lastAccessed := now }
         nextSessionId := s.nextSessionId + 1 }) := by
    show (match CartService.createCart sfClient now s with
         | (Except.ok (_, cart), s') => (some (Except.ok cart), s')
         | (Except.error e, s') => (some (Except.error e), s')) = _
    rw [createCart_sf]
  have hinv := @runInv_create now s h.inv
  rw [createCart_sf] at hinv
  rw [hrun]
  constructor
  · rw [map_visibleOf_ok]
    simp [absRunOp, visibleOfCart]
  · constructor
    · exact hinv
    · show s.nextSessionId + 1 = a.nextSessionId + 1
      rw [h.nextSess]
    · show (alistSet s.sessions s.nextSessionId _).map Prod.fst =
        (alistSet a.sessions a.nextSessionId _).map Prod.fst
      rw [← h.nextSess]
      exact keys_set_congr h.keys _ _ _
    · show ∀ sid sess, alistGet (alistSet s.sessions s.nextSessionId _) sid = some sess →
        alistGet (alistSet a.sessions a.nextSessionId []) sid = some (projItems sess.items)
      rw [← h.nextSess]
      exact rsim_items_set h.items s.nextSessionId _ [] rfl

/-- One induced expiry refines the abstract machine (it is invisible). -/
theorem rsim_step_expire {now : Int} {s : SysState} {a : AbsState} (sid : Nat)
    (h : RSim now s a) :
    ((runOp now (.expire sid) s).1).map visibleOf = (absRunOp (.expire sid) a).1 ∧
    RSim now (runOp now (.expire sid) s).2 (absRunOp (.expire sid) a).2 := by
  obtain ⟨hout, hsessions, hnext⟩ := runOp_expire_state now sid s
  constructor
  · rw [hout]
    rfl
  · constructor
    · exact runInv_expire sid h.inv
    · show (runOp now (.expire sid) s).2.nextSessionId =
        (absRunOp (.expire sid) a).2.nextSessionId
      rw [hnext]
      exact h.nextSess
    · show (runOp now (.expire sid) s).2.sessions.map Prod.fst =
        (absRunOp (.expire sid) a).2.sessions.map Prod.fst
      rw [hsessions]
      exact h.keys
    · intro sid' sess hs'
      rw [hsessions] at hs'
      exact h.items sid' sess hs'

/-- One `getCart` step refines the abstract machine. -/
theorem rsim_step_get {now : Int} {s : SysState} {a : AbsState} (sid : Nat)
    (h : RSim now s a) :
    ((runOp now (.getCart sid) s).1).map visibleOf = (absRunOp (.getCart sid) a).1 ∧
    RSim now (runOp now (.getCart sid) s).2 (absRunOp (.getCart sid) a).2 := by
  have hrun : runOp now (.getCart sid) s =
      (some (CartService.getCart sfClient now sid s).1,
       (CartService.getCart sfClient now sid s).2) := rfl
  cases hsess : alistGet s.sessions sid with
  | none =>
      have habs : alistGet a.sessions sid = none := rsim_keys_none h.keys hsess
      rw [hrun, getCart_notFound sfClient now sid s hsess]
      constructor
      · rw [map_visibleOf_error]
        simp [absRunOp, habs]
      · show RSim now s (absRunOp (.getCart sid) a).2
        simp only [absRunOp, habs]
        exact h
  | some sess =>
      have hsid := h.inv.sid_eq sid sess hsess
      have habs : alistGet a.sessions sid = some (projItems sess.items) := h.items sid sess hsess
      have hmem : sid ∈ s.sessions.map Prod.fst := by
        rw [← alistGet_isSome_iff, hsess]
        rfl
      rcases getValidContext_split now s.client sess.sfContextId with hexp | ⟨d, hd, hv⟩
      · obtain ⟨c', newItems, heq, hget, hproj, hids, hframe, hnext, hcount⟩ :=
          getCart_sf_expired hsess hsid hexp
        rw [hrun, heq]
        constructor
        · rw [map_visibleOf_ok, visible_mk, hproj]
          simp [absRunOp, habs]
        · constructor
          · exact runInv_recover h.inv hsess hget hframe hnext hproj
          · show s.nextSessionId = (absRunOp (.getCart sid) a).2.nextSessionId
            simp only [absRunOp, habs]
            exact h.nextSess
          · show (alistSet s.sessions sid _).map Prod.fst =
              (absRunOp (.getCart sid) a).2.sessions.map Prod.fst
            simp only [absRunOp, habs]
            rw [keys_set_mem hmem, h.keys]
          · simp only [absRunOp, habs]
            exact rsim_items_set_left h.items sid _ habs
      · rw [hrun, getCart_sf_valid hsess hsid hd hv]
        have hpd : projItems d.items = projItems sess.items := h.inv.ctx _ sess d hsess hd hv
        constructor
        · rw [map_visibleOf_ok]
          rw [show SalesforceCartClient.buildCart d =
            { id := CartId.ofContext d.context.id, items := d.items,
              total := SalesforceCartClient.cartTotal d.items } from rfl]
          rw [visible_mk, hpd]
          simp [absRunOp, habs]
        · constructor
          · exact runInv_touch h.inv hsess
          · show s.nextSessionId = (absRunOp (.getCart sid) a).2.nextSessionId
            simp only [absRunOp, habs]
            exact h.nextSess
          · show (alistSet s.sessions sid _).map Prod.fst =
              (absRunOp (.getCart sid) a).2.sessions.map Prod.fst
            simp only [absRunOp, habs]
            rw [keys_set_mem hmem, h.keys]
          · simp only [absRunOp, habs]
            exact rsim_items_set_left h.items sid _ habs

/-- One `addItem` step refines the abstract machine. -/
theorem rsim_step_add {now : Int} {s : SysState} {a : AbsState} (sid : Nat)
    (input : CartItemInput) (h : RSim now s a) :
    ((runOp now (.addItem sid input) s).1).map visibleOf =
      (absRunOp (.addItem sid input) a).1 ∧
    RSim now (runOp now (.addItem sid input) s).2 (absRunOp (.addItem sid input) a).2 := by
  have hrun : runOp now (.addItem sid input) s =
      (some (CartService.addItem sfClient now sid input s).1,
       (CartService.addItem sfClient now sid input s).2) := rfl
  cases hsess : alistGet s.sessions sid with
  | none =>
      have habs : alistGet a.sessions sid = none := rsim_keys_none h.keys hsess
      rw [hrun, addItem_notFound sfClient now sid input s hsess]
      constructor
      · rw [map_visibleOf_error]
        simp [absRunOp, habs]
      · show RSim now s (absRunOp (.addItem sid input) a).2
        simp only [absRunOp, habs]
        exact h
  | some sess =>
      have hsid := h.inv.sid_eq sid sess hsess
      have habs : alistGet a.sessions sid = some (projItems sess.items) := h.items sid sess hsess
      have hmem : sid ∈ s.sessions.map Prod.fst := by
        rw [← alistGet_isSome_iff, hsess]
        rfl
      rcases getValidContext_split now s.client sess.sfContextId with hexp | ⟨d, hd, hv⟩
      · obtain ⟨c'', fullItems, heq, hproj, hget, hframe, hnext⟩ :=
          addItem_sf_expired input hsess hsid hexp
        rw [hrun, heq]
        constructor
        · rw [map_visibleOf_ok, visible_mk, hproj]
          simp [absRunOp, habs]
        · constructor
          · exact runInv_recover h.inv hsess hget hframe hnext rfl
          · show s.nextSessionId = (absRunOp (.addItem sid input) a).2.nextSessionId
            simp only [absRunOp, habs]
            exact h.nextSess
          · show (alistSet s.sessions sid _).map Prod.fst =
              (absRunOp (.addItem sid input) a).2.sessions.map Prod.fst
            simp only [absRunOp, habs]
            rw [keys_set_mem hmem]
            rw [h.keys] at hmem ⊢
            rw [keys_set_mem hmem]
          · simp only [absRunOp, habs]
            exact rsim_items_set h.items sid _ _ hproj
      · rw [hrun, addItem_sf_valid input hsess hsid hd hv]
        have hpd : projItems d.items = projItems sess.items := h.inv.ctx _ sess d hsess hd hv
        have hfull : projItems (d.items ++ [newCartItem s.client.itemCounter input]) =
            projItems sess.items ++ [projInput input] := by
          rw [projItems_snoc_new, hpd]
        constructor
        · rw [map_visibleOf_ok]
          rw [show SalesforceCartClient.buildCart
              { d with items := d.items ++ [newCartItem s.client.itemCounter input] } =
            { id := CartId.ofContext d.context.id,
              items := d.items ++ [newCartItem s.client.itemCounter input],
              total := SalesforceCartClient.cartTotal
                (d.items ++ [newCartItem s.client.itemCounter input]) } from rfl]
          rw [visible_mk, hfull]
          simp [absRunOp, habs]
        · constructor
          · exact runInv_sync h.inv hsess hd rfl rfl
          · show s.nextSessionId = (absRunOp (.addItem sid input) a).2.nextSessionId
            simp only [absRunOp, habs]
            exact h.nextSess
          · show (alistSet s.sessions sid _).map Prod.fst =
              (absRunOp (.addItem sid input) a).2.sessions.map Prod.fst
            simp only [absRunOp, habs]
            rw [keys_set_mem hmem]
            rw [h.keys] at hmem ⊢
            rw [keys_set_mem hmem]
          · simp only [absRunOp, habs]
            exact rsim_items_set h.items sid _ _ hfull

/-- One simple step (no `removeItem`/`updateItem`) refines the abstract
machine. -/
theorem rsim_step {now : Int} {s : SysState} {a : AbsState} (op : TraceOp)
    (hop : op.simple = true) (h : RSim now s a) :
    ((runOp now op s).1).map visibleOf = (absRunOp op a).1 ∧
    RSim now (runOp now op s).2 (absRunOp op a).2 := by
  cases op with
  | createCart => exact rsim_step_create h
  | getCart sid => exact rsim_step_get sid h
  | addItem sid input => exact rsim_step_add sid input h
  | removeItem sid itemId => simp [TraceOp.simple] at hop
  | updateItem sid itemId q => simp [TraceOp.simple] at hop
  | expire sid => exact rsim_step_expire sid h

/-- Traces of simple operations are fully determined by the abstract machine. -/
theorem traceOut_eq_abs (now : Int) :
    ∀ (ops : List TraceOp) (s : SysState) (a : AbsState),
      (∀ op ∈ ops, op.simple = true) → RSim now s a →
      traceOut now ops s = absTraceOut ops a := by
  intro ops
  induction ops with
  | nil =>
      intro s a _ _
      rfl
  | cons op ops ih =>
      intro s a hops h
      have hop := hops op (List.mem_cons_self _ _)
      obtain ⟨hout, hsim⟩ := rsim_step op hop h
      have hrest := ih (runOp now op s).2 (absRunOp op a).2
        (fun o ho => hops o (List.mem_cons_of_mem _ ho)) hsim
      rcases hstep : runOp now op s with ⟨r, s'⟩
      rcases hastep : absRunOp op a with ⟨ra, a'⟩
      rw [hstep, hastep] at hout hrest
      simp only at hout hrest
      show traceOut now (op :: ops) s = absTraceOut (op :: ops) a
      simp only [traceOut, absTraceOut, hstep, hastep]
      cases r with
      | none =>
          cases ra with
          | none => exact hrest
          | some x => simp at hout
      | some rr =>
          cases ra with
          | none => simp at hout
          | some x =>
              simp only [Option.map] at hout
              injection hout with hout'
              simp only
              rw [hout', hrest]

/-- The abstract machine ignores induced expiries: filtering them out of a
trace leaves the abstract outputs unchanged. -/
theorem absTraceOut_filter (ops : List TraceOp) :
    ∀ a : AbsState, absTraceOut (ops.filter TraceOp.isCaller) a = absTraceOut ops a := by
  induction ops with
  | nil =>
      intro a
      rfl
  | cons op ops ih =>
      intro a
      by_cases hc : TraceOp.isCaller op = true
      · rw [List.filter_cons_of_pos hc]
        show absTraceOut (op :: ops.filter TraceOp.isCaller) a = absTraceOut (op :: ops) a
        rcases hastep : absRunOp op a with ⟨ra, a'⟩
        simp only [absTraceOut, hastep]
        cases ra with
        | none => exact ih a'
        | some x =>
            simp only
            rw [ih a']
      · rw [List.filter_cons_of_neg (by simpa using hc)]
        cases op with
        | expire sid =>
            show absTraceOut (ops.filter TraceOp.isCaller) a = absTraceOut (.expire sid :: ops) a
            simp only [absTraceOut, absRunOp]
            exact ih a
        | createCart => simp [TraceOp.isCaller] at hc
        | getCart sid => simp [TraceOp.isCaller] at hc
        | addItem sid input => simp [TraceOp.isCaller] at hc
        | removeItem sid itemId => simp [TraceOp.isCaller] at hc
        | updateItem sid itemId q => simp [TraceOp.isCaller] at hc

/-- The empty system is in the invariant and refines the empty abstract
machine. -/
theorem rsim_init (now : Int) : RSim now initState absInit := by
  constructor
  · constructor
    · intro sid sess hs
      simp [initState, alistGet] at hs
    · intro cid d hd
      simp [initState, alistGet] at hd
    · intro sid sess d hs
      simp [initState, alistGet] at hs
    · intro sid sess hs
      simp [initState, alistGet] at hs
    · intro sid₁ sid₂ sess₁ sess₂ hs₁
      simp [initState, alistGet] at hs₁
  · rfl
  · rfl
  · intro sid sess hs
    simp [initState, alistGet] at hs

theorem runInv_init (now : Int) : RunInv now initState := (rsim_init now).inv

/-- Run invariant of any state reached by a trace from the initial state. -/
theorem runInv_runTrace (now : Int) :
    ∀ (ops : List TraceOp) (s : SysState), RunInv now s → RunInv now (runTrace now ops s) := by
  intro ops
  induction ops with
  | nil => intro s h; exact h
  | cons op ops ih =>
      intro s h
      exact ih _ (runOp_preserves now op s h).1

/-! ## The claims -/

/-- C1 (counterexample): the invisibility property fails as stated once
`removeItem` is allowed in the sequence — after a recovery the caller-held
item id `2` names a DIFFERENT product than in the expiry-free run, so the
visible cart states diverge. -/
theorem invisibility_cex :
    traceOut 0 [TraceOp.createCart, TraceOp.addItem 0 ⟨1, 1, 100, 1⟩, TraceOp.expire 0,
        TraceOp.addItem 0 ⟨2, 2, 100, 1⟩, TraceOp.removeItem 0 2] initState ≠
    traceOut 0 ([TraceOp.createCart, TraceOp.addItem 0 ⟨1, 1, 100, 1⟩, TraceOp.expire 0,
        TraceOp.addItem 0 ⟨2, 2, 100, 1⟩,
        TraceOp.removeItem 0 2].filter TraceOp.isCaller) initState := by
  decide

/-- C1 (amended): for every sequence of `createCart`, `getCart` and `addItem`
operations interleaved with arbitrarily many induced context expiries, the
sequence of caller-visible cart states ((productId, quantity) rows and total)
is identical to the same sequence run with no expiries at all; and recovery
replays every item of `Session.items`, in original order, into the new
context before rebinding. -/
theorem invisibility_of_recovery (now : Int) (ops : List TraceOp)
    (hops : ∀ op ∈ ops, op.simple = true) :
    traceOut now ops initState = traceOut now (ops.filter TraceOp.isCaller) initState ∧
    ∀ (sess : SessionCart) (c : SfState),
      ∃ c' d, CartService.recoverContext sfClient now sess c =
          (.ok { sess with sfContextId := c.nextContextId }, c') ∧
        alistGet c'.contexts c.nextContextId = some d ∧
        projItems d.items = projItems sess.items := by
  constructor
  · have h1 := traceOut_eq_abs now ops initState absInit hops (rsim_init now)
    have h2 := traceOut_eq_abs now (ops.filter TraceOp.isCaller) initState absInit
      (fun op ho => hops op (List.mem_of_mem_filter ho)) (rsim_init now)
    rw [h1, h2, absTraceOut_filter]
  · intro sess c
    obtain ⟨c', newItems, hrec, hget, hproj, _, _, _, _⟩ := recoverContext_sf now sess c
    exact ⟨c', _, hrec, hget, hproj⟩

/-- C1 (witness): a concrete expiry-interleaved add/get trace whose visible
outputs match its expiry-free counterpart. -/
theorem invisibility_witness :
    traceOut 0 [TraceOp.createCart, TraceOp.addItem 0 ⟨1, 1, 100, 1⟩, TraceOp.expire 0,
        TraceOp.addItem 0 ⟨2, 2, 50, 2⟩, TraceOp.getCart 0] initState =
    traceOut 0 ([TraceOp.createCart, TraceOp.addItem 0 ⟨1, 1, 100, 1⟩, TraceOp.expire 0,
        TraceOp.addItem 0 ⟨2, 2, 50, 2⟩,
        TraceOp.getCart 0].filter TraceOp.isCaller) initState :=
  (invisibility_of_recovery 0
    [TraceOp.createCart, TraceOp.addItem 0 ⟨1, 1, 100, 1⟩, TraceOp.expire 0,
     TraceOp.addItem 0 ⟨2, 2, 50, 2⟩, TraceOp.getCart 0] (by decide)).1

/-- C2 (counterexample): a context whose expiry instant equals the current
instant exactly is NOT treated as expired — `getCart` at `now = 100` on a
context with `expiresAt = 100` succeeds instead of failing with
expired-context. -/
theorem expiry_boundary_cex :
    (SalesforceCartClient.getCart 100 0
      { contexts := [(0, { context := { id := 0, expiresAt := 100 }, items := [] })]
        nextContextId := 1
        itemCounter := 0 }).1 =
      .ok { id := .ofContext 0, items := [], total := 0 } := by
  decide

/-- C2 (amended): the boundary is exclusive.  A provider call fails with
expired-context exactly when the context is unknown or the current instant is
STRICTLY past its expiry instant (`Date.now() > expiresAt`); a context whose
expiry instant equals the current instant is still valid.  On expiry the call
performs no mutation. -/
theorem expiry_boundary_exclusive (now : Int) (ctxId itemId q : Nat)
    (input : CartItemInput) (c : SfState) :
    (SalesforceCartClient.getValidContext now c ctxId = none ↔
      (alistGet c.contexts ctxId = none ∨
        ∃ d, alistGet c.contexts ctxId = some d ∧ now > d.context.expiresAt)) ∧
    ((SalesforceCartClient.getCart now ctxId c).1 = .error (.contextExpired ctxId) ↔
      SalesforceCartClient.getValidContext now c ctxId = none) ∧
    ((SalesforceCartClient.addItem now ctxId input c).1 = .error (.contextExpired ctxId) ↔
      SalesforceCartClient.getValidContext now c ctxId = none) ∧
    ((SalesforceCartClient.removeItem now ctxId itemId c).1 = .error (.contextExpired ctxId) ↔
      SalesforceCartClient.getValidContext now c ctxId = none) ∧
    ((SalesforceCartClient.updateItem now ctxId itemId q c).1 = .error (.contextExpired ctxId) ↔
      SalesforceCartClient.getValidContext now c ctxId = none) ∧
    (SalesforceCartClient.getValidContext now c ctxId = none →
      (SalesforceCartClient.getCart now ctxId c).2 = c ∧
      (SalesforceCartClient.addItem now ctxId input c).2 = c ∧
      (SalesforceCartClient.removeItem now ctxId itemId c).2 = c ∧
      (SalesforceCartClient.updateItem now ctxId itemId q c).2 = c) := by
  refine ⟨getValidContext_eq_none_iff now c ctxId, ?_, ?_, ?_, ?_, ?_⟩
  · constructor
    · intro h
      rcases getValidContext_split now c ctxId with hexp | ⟨d, hd, hv⟩
      · exact hexp
      · rw [getCart_sf_ok hd hv] at h
        cases h
    · intro h
      rw [getCart_sf_expired_client h]
  · constructor
    · intro h
      rcases getValidContext_split now c ctxId with hexp | ⟨d, hd, hv⟩
      · exact hexp
      · rw [addItem_sf_ok hd hv input] at h
        cases h
    · intro h
      rw [addItem_sf_expired_client input h]
  · constructor
    · intro h
      rcases getValidContext_split now c ctxId with hexp | ⟨d, hd, hv⟩
      · exact hexp
      · cases hfind : d.items.find? (fun it => it.id == itemId) with
        | none =>
            rw [removeItem_sf_missing hd hv hfind] at h
            cases h
        | some x =>
            rw [removeItem_sf_ok hd hv (by rw [hfind]; rfl)] at h
            cases h
    · intro h
      rw [removeItem_sf_expired_client itemId h]
  · constructor
    · intro h
      rcases getValidContext_split now c ctxId with hexp | ⟨d, hd, hv⟩
      · exact hexp
      · cases hfind : d.items.find? (fun it => it.id == itemId) with
        | none =>
            rw [updateItem_sf_missing q hd hv hfind] at h
            cases h
        | some x =>
            rw [updateItem_sf_ok q hd hv (by rw [hfind]; rfl)] at h
            cases h
    · intro h
      rw [updateItem_sf_expired_client itemId q h]
  · intro h
    rw [getCart_sf_expired_client h, addItem_sf_expired_client input h,
      removeItem_sf_expired_client itemId h, updateItem_sf_expired_client itemId q h]
    exact ⟨rfl, rfl, rfl, rfl⟩

/-- C2 (witness): the amended characterization applied at the boundary state
and at a strictly-past state. -/
theorem expiry_boundary_witness :
    ¬ (SalesforceCartClient.getValidContext 100
      { contexts := [(0, { context := { id := 0, expiresAt := 100 }, items := [] })]
        nextContextId := 1
        itemCounter := 0 } 0 = none) ∧
    (SalesforceCartClient.getCart 101 0
      { contexts := [(0, { context := { id := 0, expiresAt := 100 }, items := [] })]
        nextContextId := 1
        itemCounter := 0 }).1 = .error (.contextExpired 0) := by
  constructor
  · intro h
    rcases (expiry_boundary_exclusive 100 0 0 0 ⟨0, 0, 0, 0⟩
        { contexts := [(0, { context := { id := 0, expiresAt := 100 }, items := [] })]
          nextContextId := 1
          itemCounter := 0 }).1.mp h with h' | ⟨d, hd, hv⟩
    · exact absurd h' (by decide)
    · rw [show alistGet
          ({ contexts := [(0, { context := { id := 0, expiresAt := 100 }, items := [] })]
             nextContextId := 1
             itemCounter := 0 } : SfState).contexts 0 =
          some { context := { id := 0, expiresAt := 100 }, items := [] } from by decide] at hd
      cases hd
      exact absurd hv (by decide)
  · exact (expiry_boundary_exclusive 101 0 0 0 ⟨0, 0, 0, 0⟩
      { contexts := [(0, { context := { id := 0, expiresAt := 100 }, items := [] })]
        nextContextId := 1
        itemCounter := 0 }).2.1.mpr (by decide)

/-- With ANY client: a successful recovery is exactly create-then-full-replay,
and only then is `sfContextId` rebound (items untouched). -/
theorem recoverContext_ok_shape {σ : Type} (C : CartClient σ) (now : Int)
    (sess : SessionCart) (c : σ) :
    ∀ sess' c', CartService.recoverContext C now sess c = (.ok sess', c') →
      ∃ ctx c₁, C.createContext now c = (.ok ctx, c₁) ∧
        CartService.replayItems C now ctx.id sess.items c₁ = (.ok (), c') ∧
        sess' = { sess with sfContextId := ctx.id } := by
  intro sess' c' h
  unfold CartService.recoverContext at h
  rcases hc1 : C.createContext now c with ⟨r1, c1⟩
  rw [hc1] at h
  cases r1 with
  | error e => simp at h
  | ok ctx =>
      simp only at h
      rcases hrep : CartService.replayItems C now ctx.id sess.items c1 with ⟨r2, c2⟩
      rw [hrep] at h
      cases r2 with
      | error e => simp at h
      | ok u =>
          cases u
          simp only [Prod.mk.injEq] at h
          obtain ⟨h1, h2⟩ := h
          injection h1 with h1
          subst h2
          exact ⟨ctx, c1, rfl, hrep, h1.symm⟩

/-- With ANY client: a failed recovery wraps the underlying cause into
`ContextRecoveryFailedError` carrying the session id. -/
theorem recoverContext_error_shape {σ : Type} (C : CartClient σ) (now : Int)
    (sess : SessionCart) (c : σ) :
    ∀ e c', CartService.recoverContext C now sess c = (.error e, c') →
      ∃ cause : ClientError, e = .recoveryFailed sess.sessionId (some cause) := by
  intro e c' h
  unfold CartService.recoverContext at h
  rcases hc1 : C.createContext now c with ⟨r1, c1⟩
  rw [hc1] at h
  cases r1 with
  | error e0 =>
      simp only [Prod.mk.injEq] at h
      obtain ⟨h1, _⟩ := h
      injection h1 with h1
      exact ⟨e0, h1.symm⟩
  | ok ctx =>
      simp only at h
      rcases hrep : CartService.replayItems C now ctx.id sess.items c1 with ⟨r2, c2⟩
      rw [hrep] at h
      cases r2 with
      | error e0 =>
          simp only [Prod.mk.injEq] at h
          obtain ⟨h1, _⟩ := h
          injection h1 with h1
          exact ⟨e0, h1.symm⟩
      | ok u => simp at h

/-- C3: recovery atomicity.  With any provider client: `sfContextId` is
rebound only after the full replay has succeeded; a failed recovery yields
`ContextRecoveryFailedError` carrying the session id and underlying cause;
and when `getCart` surfaces a recovery failure the stored session record is
untouched apart from `lastAccessed` (same `sfContextId`, same items). -/
theorem recovery_atomicity {σ : Type} (C : CartClient σ) (now : Int) (sess : SessionCart)
    (c : σ) :
    (∀ sess' c', CartService.recoverContext C now sess c = (.ok sess', c') →
       ∃ ctx c₁, C.createContext now c = (.ok ctx, c₁) ∧
         CartService.replayItems C now ctx.id sess.items c₁ = (.ok (), c') ∧
         sess' = { sess with sfContextId := ctx.id }) ∧
    (∀ e c', CartService.recoverContext C now sess c = (.error e, c') →
       ∃ cause : ClientError, e = .recoveryFailed sess.sessionId (some cause)) ∧
    (∀ (s : ServiceState σ) (sid x : Nat) (cause : Option ClientError)
       (s' : ServiceState σ),
       alistGet s.sessions sid = some sess → sess.sessionId = sid →
       CartService.getCart C now sid s = (.error (.recoveryFailed x cause), s') →
       alistGet s'.sessions sid = some { sess with lastAccessed := now } ∧
       x = sess.sessionId) := by
  refine ⟨recoverContext_ok_shape C now sess c, recoverContext_error_shape C now sess c, ?_⟩
  intro s sid x cause s' hsess hsid h
  simp only [CartService.getCart, hsess, CartService.setSession] at h
  rcases hg : C.getCart now sess.sfContextId s.client with ⟨r1, c1⟩
  rw [show ({ sess with lastAccessed := now } : SessionCart).sfContextId = sess.sfContextId
    from rfl] at h
  rw [hg] at h
  cases r1 with
  | ok cart => simp at h
  | error e1 =>
      cases e1 with
      | itemNotFound i =>
          simp only [Prod.mk.injEq] at h
          obtain ⟨h1, _⟩ := h
          cases h1
      | providerFailure k =>
          simp only [Prod.mk.injEq] at h
          obtain ⟨h1, _⟩ := h
          cases h1
      | contextExpired cid =>
          simp only at h
          rcases hrec : CartService.recoverContext C now { sess with lastAccessed := now } c1
            with ⟨r2, c2⟩
          rw [show CartService.recoverContext C now
              { sess with lastAccessed := now } c1 = (r2, c2) from hrec] at h
          cases r2 with
          | error e2 =>
              simp only [Prod.mk.injEq] at h
              obtain ⟨h1, h2⟩ := h
              obtain ⟨cause₀, hc⟩ :=
                recoverContext_error_shape C now { sess with lastAccessed := now } c1 e2 c2 hrec
              injection h1 with h1
              subst h1
              rw [show ({ sess with lastAccessed := now } : SessionCart).sessionId =
                sess.sessionId from rfl] at hc
              injection hc with hx hcause
              constructor
              · rw [← h2]
                show alistGet (alistSet s.sessions sess.sessionId
                  { sess with lastAccessed := now }) sid = _
                rw [hsid]
                exact alistGet_set_self _ _ _
              · exact hx
          | ok sess'' =>
              simp only at h
              rcases hg2 : C.getCart now sess''.sfContextId c2 with ⟨r3, c3⟩
              rw [hg2] at h
              cases r3 with
              | ok cart => simp at h
              | error e3 =>
                  simp only [Prod.mk.injEq] at h
                  obtain ⟨h1, _⟩ := h
                  cases h1

/-- C3 (witness): with a provider whose `createContext` fails, recovery at a
concrete session yields exactly the wrapped `recoveryFailed` error. -/
theorem recovery_atomicity_witness :
    (CartService.recoverContext failClient 0
      { sessionId := 5, sfContextId := 9, items := [], createdAt := 0, lastAccessed := 0 }
      ()).1 = .error (.recoveryFailed 5 (some (.providerFailure 7))) ∧
    ∃ cause : ClientError,
      CartError.recoveryFailed 5 (some (.providerFailure 7)) =
        .recoveryFailed 5 (some cause) := by
  refine ⟨rfl, ?_⟩
  exact (recovery_atomicity failClient 0
    { sessionId := 5, sfContextId := 9, items := [], createdAt := 0, lastAccessed := 0 }
    ()).2.1 (.recoveryFailed 5 (some (.providerFailure 7))) () (by decide)

/-- C7: any coordinator operation other than `createCart`, invoked with an
unknown session id, fails with `CartNotFoundError` and leaves the whole state
(including the provider's) untouched — no provider call is made. -/
theorem unknown_session_rejected {σ : Type} (C : CartClient σ) (now : Int)
    (sid itemId q : Nat) (input : CartItemInput) (s : ServiceState σ)
    (h : alistGet s.sessions sid = none) :
    CartService.getCart C now sid s = (.error (.cartNotFound sid), s) ∧
    CartService.addItem C now sid input s = (.error (.cartNotFound sid), s) ∧
    CartService.removeItem C now sid itemId s = (.error (.cartNotFound sid), s) ∧
    CartService.updateItem C now sid itemId q s = (.error (.cartNotFound sid), s) :=
  ⟨getCart_notFound C now sid s h, addItem_notFound C now sid input s h,
   removeItem_notFound C now sid itemId s h, updateItem_notFound C now sid itemId q s h⟩

/-- C7 (witness): `getCart` on a fresh system with an unknown session id. -/
theorem unknown_session_witness :
    alistGet initState.sessions 3 = none ∧
    CartService.getCart sfClient 0 3 initState = (.error (.cartNotFound 3), initState) :=
  ⟨by decide,
   (unknown_session_rejected sfClient 0 3 0 0 ⟨0, 0, 0, 0⟩ initState (by decide)).1⟩

/-- C4 (counterexample): when the stale item id is not found in the
authoritative list, the caller observes the ORIGINAL expired-context error,
not item-not-found. -/
theorem stale_id_cex :
    (CartService.removeItem sfClient 0 0 99
      (runTrace 0 [TraceOp.createCart, TraceOp.expire 0] initState)).1 =
      .error (.client (.contextExpired 0)) := by
  decide

/-- C4 (amended): on a `removeItem`/`updateItem` whose item id was valid only
in the now-expired context, the coordinator resolves the target via the
productId of the session item carrying the stale id and, after replay,
operates on the FIRST item of the new cart with that productId; if the stale
id is absent from the authoritative list, the original expired-context error
is rethrown (the caller observes expired-context, not item-not-found). -/
theorem stale_id_remapping (now : Int) (sid itemId q : Nat) (s : SysState)
    (sess : SessionCart)
    (hsess : alistGet s.sessions sid = some sess) (hsid : sess.sessionId = sid)
    (hexp : SalesforceCartClient.getValidContext now s.client sess.sfContextId = none) :
    (sess.items.find? (fun it => it.id == itemId) = none →
       (CartService.removeItem sfClient now sid itemId s).1 =
         .error (.client (.contextExpired sess.sfContextId)) ∧
       (CartService.updateItem sfClient now sid itemId q s).1 =
         .error (.client (.contextExpired sess.sfContextId))) ∧
    (∀ target, sess.items.find? (fun it => it.id == itemId) = some target →
       (∃ cart s', CartService.removeItem sfClient now sid itemId s = (.ok cart, s') ∧
          projItems cart.items =
            projItems (sess.items.eraseP (fun it => it.productId == target.productId))) ∧
       (∃ cart s', CartService.updateItem sfClient now sid itemId q s = (.ok cart, s') ∧
          projItems cart.items = projItems (SalesforceCartClient.updateFirst
            (fun it => it.productId == target.productId)
            (fun it => { it with quantity := q }) sess.items))) := by
  constructor
  · intro hnone
    obtain ⟨c1, n1, heq1, _⟩ := removeItem_sf_expired_stale hsess hsid hexp hnone
    obtain ⟨c2, n2, heq2, _⟩ := updateItem_sf_expired_stale q hsess hsid hexp hnone
    rw [heq1, heq2]
    exact ⟨rfl, rfl⟩
  · intro target htarget
    obtain ⟨c1, rest, heq1, hpr1, _⟩ := removeItem_sf_expired_found hsess hsid hexp htarget
    obtain ⟨c2, upd, heq2, hpr2, _⟩ := updateItem_sf_expired_found q hsess hsid hexp htarget
    exact ⟨⟨_, _, heq1, hpr1⟩, ⟨_, _, heq2, hpr2⟩⟩

/-- C4 (witness): removing via a pre-expiry item id after an induced expiry
removes the item with the matching productId. -/
theorem stale_id_witness :
    ∃ cart s', CartService.removeItem sfClient 0 0 1
        (runTrace 0 [TraceOp.createCart, TraceOp.addItem 0 ⟨1, 1, 100, 1⟩, TraceOp.expire 0]
          initState) = (.ok cart, s') ∧
      projItems cart.items =
        projItems (([⟨1, 1, 1, 100, 1⟩] : List CartItem).eraseP
          (fun it => it.productId == (⟨1, 1, 1, 100, 1⟩ : CartItem).productId)) :=
  ((stale_id_remapping 0 0 1 2
    (runTrace 0 [TraceOp.createCart, TraceOp.addItem 0 ⟨1, 1, 100, 1⟩, TraceOp.expire 0]
      initState)
    { sessionId := 0, sfContextId := 0, items := [⟨1, 1, 1, 100, 1⟩], createdAt := 0,
      lastAccessed := 0 }
    (by decide) (by decide) (by decide)).2 ⟨1, 1, 1, 100, 1⟩ (by decide)).1

theorem expireContext_nextContextId (now : Int) (cid : Nat) (c : SfState) :
    (SalesforceCartClient.expireContext now cid c).nextContextId = c.nextContextId := by
  unfold SalesforceCartClient.expireContext
  cases alistGet c.contexts cid <;> rfl

/-- At most one context creation (hence at most one recovery) per step. -/
theorem runOp_nextContextId_le (now : Int) (op : TraceOp) (s : SysState)
    (hwf : ∀ sid' sess', alistGet s.sessions sid' = some sess' → sess'.sessionId = sid') :
    (runOp now op s).2.client.nextContextId ≤ s.client.nextContextId + 1 := by
  cases op with
  | createCart =>
      have hrun : runOp now .createCart s =
          (some (.ok { id := .ofSession s.nextSessionId, items := [], total := 0 }),
           (CartService.createCart sfClient now s).2) := by
        show (match CartService.createCart sfClient now s with
             | (Except.ok (_, cart), s') => (some (Except.ok cart), s')
             | (Except.error e, s') => (some (Except.error e), s')) = _
        rw [createCart_sf]
      rw [hrun, createCart_sf]
  | getCart sid =>
      have hrun : (runOp now (.getCart sid) s).2 =
          (CartService.getCart sfClient now sid s).2 := rfl
      rw [hrun]
      cases hsess : alistGet s.sessions sid with
      | none =>
          rw [getCart_notFound sfClient now sid s hsess]
          dsimp only
          omega
      | some sess =>
          have hsid := hwf sid sess hsess
          rcases getValidContext_split now s.client sess.sfContextId with hexp | ⟨d, hd, hv⟩
          · obtain ⟨c', newItems, heq, _, _, _, _, hnext, _⟩ :=
              getCart_sf_expired hsess hsid hexp
            rw [heq]
            dsimp only
            omega
          · rw [getCart_sf_valid hsess hsid hd hv]
            dsimp only
            omega
  | addItem sid input =>
      have hrun : (runOp now (.addItem sid input) s).2 =
          (CartService.addItem sfClient now sid input s).2 := rfl
      rw [hrun]
      cases hsess : alistGet s.sessions sid with
      | none =>
          rw [addItem_notFound sfClient now sid input s hsess]
          dsimp only
          omega
      | some sess =>
          have hsid := hwf sid sess hsess
          rcases getValidContext_split now s.client sess.sfContextId with hexp | ⟨d, hd, hv⟩
          · obtain ⟨c'', fullItems, heq, _, _, _, hnext⟩ :=
              addItem_sf_expired input hsess hsid hexp
            rw [heq]
            dsimp only
            omega
          · rw [addItem_sf_valid input hsess hsid hd hv]
            show s.client.nextContextId ≤ s.client.nextContextId + 1
            dsimp only
            omega
  | removeItem sid itemId =>
      have hrun : (runOp now (.removeItem sid itemId) s).2 =
          (CartService.removeItem sfClient now sid itemId s).2 := rfl
      rw [hrun]
      cases hsess : alistGet s.sessions sid with
      | none =>
          rw [removeItem_notFound sfClient now sid itemId s hsess]
          dsimp only
          omega
      | some sess =>
          have hsid := hwf sid sess hsess
          rcases getValidContext_split now s.client sess.sfContextId with hexp | ⟨d, hd, hv⟩
          · cases hstale : sess.items.find? (fun it => it.id == itemId) with
            | none =>
                obtain ⟨c', newItems, heq, _, _, _, hnext⟩ :=
                  removeItem_sf_expired_stale hsess hsid hexp hstale
                rw [heq]
                dsimp only
                omega
            | some target =>
                obtain ⟨c'', restItems, heq, _, _, _, hnext⟩ :=
                  removeItem_sf_expired_found hsess hsid hexp hstale
                rw [heq]
                dsimp only
                omega
          · cases hfind : d.items.find? (fun it => it.id == itemId) with
            | none =>
                rw [removeItem_sf_valid_missing hsess hsid hd hv hfind]
                dsimp only
                omega
            | some x =>
                rw [removeItem_sf_valid_found hsess hsid hd hv (by rw [hfind]; rfl)]
                show s.client.nextContextId ≤ s.client.nextContextId + 1
                dsimp only
                omega
  | updateItem sid itemId q =>
      have hrun : (runOp now (.updateItem sid itemId q) s).2 =
          (CartService.updateItem sfClient now sid itemId q s).2 := rfl
      rw [hrun]
      cases hsess : alistGet s.sessions sid with
      | none =>
          rw [updateItem_notFound sfClient now sid itemId q s hsess]
          dsimp only
          omega
      | some sess =>
          have hsid := hwf sid sess hsess
          rcases getValidContext_split now s.client sess.sfContextId with hexp | ⟨d, hd, hv⟩
          · cases hstale : sess.items.find? (fun it => it.id == itemId) with
            | none =>
                obtain ⟨c', newItems, heq, _, _, _, hnext⟩ :=
                  updateItem_sf_expired_stale q hsess hsid hexp hstale
                rw [heq]
                dsimp only
                omega
            | some target =>
                obtain ⟨c'', updItems, heq, _, _, _, hnext⟩ :=
                  updateItem_sf_expired_found q hsess hsid hexp hstale
                rw [heq]
                dsimp only
                omega
          · cases hfind : d.items.find? (fun it => it.id == itemId) with
            | none =>
                rw [updateItem_sf_valid_missing q hsess hsid hd hv hfind]
                dsimp only
                omega
            | some x =>
                rw [updateItem_sf_valid_found q hsess hsid hd hv (by rw [hfind]; rfl)]
                show s.client.nextContextId ≤ s.client.nextContextId + 1
                dsimp only
                omega
  | expire sid =>
      have hrun : (runOp now (.expire sid) s).2 =
          (match alistGet s.sessions sid with
           | none => s
           | some sess =>
               { s with
                   client := SalesforceCartClient.expireContext now sess.sfContextId
                     s.client }) := rfl
      rw [hrun]
      cases alistGet s.sessions sid with
      | none =>
          show s.client.nextContextId ≤ s.client.nextContextId + 1
          omega
      | some sess =>
          show (SalesforceCartClient.expireContext now sess.sfContextId s.client).nextContextId ≤
            s.client.nextContextId + 1
          rw [expireContext_nextContextId]
          omega

/-- C5 (counterexample): an expired-context error IS surfaced to the
coordinator's caller — `updateItem` with a stale item id that is absent from
the authoritative `Session.items`, invoked after an induced expiry, re-throws
the provider's expired-context error unchanged instead of absorbing it. -/
theorem expired_absorption_cex :
    (CartService.updateItem sfClient 0 0 99 3
      (runTrace 0 [TraceOp.createCart, TraceOp.expire 0] initState)).1 =
      .error (.client (.contextExpired 0)) := by
  decide

/-- C5 (amended): `getCart` and `addItem` never surface an expired-context
error to the caller; `removeItem` and `updateItem` surface one exactly when
the context is expired (or unknown) AND the stale item id is absent from the
authoritative `Session.items` (the caught error is then re-thrown); and
recovery is attempted at most once per caller operation — each step creates
at most one fresh context. -/
theorem expired_absorption_bounded_retry (now : Int) (sid itemId q : Nat)
    (input : CartItemInput) (s : SysState)
    (hwf : ∀ sid' sess', alistGet s.sessions sid' = some sess' → sess'.sessionId = sid') :
    isExpiredSurface (CartService.getCart sfClient now sid s).1 = false ∧
    isExpiredSurface (CartService.addItem sfClient now sid input s).1 = false ∧
    (isExpiredSurface (CartService.removeItem sfClient now sid itemId s).1 = true ↔
      ∃ sess, alistGet s.sessions sid = some sess ∧
        SalesforceCartClient.getValidContext now s.client sess.sfContextId = none ∧
        sess.items.find? (fun it => it.id == itemId) = none) ∧
    (isExpiredSurface (CartService.updateItem sfClient now sid itemId q s).1 = true ↔
      ∃ sess, alistGet s.sessions sid = some sess ∧
        SalesforceCartClient.getValidContext now s.client sess.sfContextId = none ∧
        sess.items.find? (fun it => it.id == itemId) = none) ∧
    (∀ op : TraceOp,
      (runOp now op s).2.client.nextContextId ≤ s.client.nextContextId + 1) := by
  refine ⟨?_, ?_, ⟨?_, ?_⟩, ⟨?_, ?_⟩, fun op => runOp_nextContextId_le now op s hwf⟩
  · cases hsess : alistGet s.sessions sid with
    | none => rw [getCart_notFound sfClient now sid s hsess]; rfl
    | some sess =>
        have hsid := hwf sid sess hsess
        rcases getValidContext_split now s.client sess.sfContextId with hexp | ⟨d, hd, hv⟩
        · obtain ⟨c', newItems, heq, -, -, -, -, -, -⟩ := getCart_sf_expired hsess hsid hexp
          rw [heq]; rfl
        · rw [getCart_sf_valid hsess hsid hd hv]; rfl
  · cases hsess : alistGet s.sessions sid with
    | none => rw [addItem_notFound sfClient now sid input s hsess]; rfl
    | some sess =>
        have hsid := hwf sid sess hsess
        rcases getValidContext_split now s.client sess.sfContextId with hexp | ⟨d, hd, hv⟩
        · obtain ⟨c'', fullItems, heq, -, -, -, -⟩ := addItem_sf_expired input hsess hsid hexp
          rw [heq]; rfl
        · rw [addItem_sf_valid input hsess hsid hd hv]; rfl
  · intro h
    cases hsess : alistGet s.sessions sid with
    | none =>
        rw [removeItem_notFound sfClient now sid itemId s hsess] at h
        simp [isExpiredSurface] at h
    | some sess =>
        have hsid := hwf sid sess hsess
        rcases getValidContext_split now s.client sess.sfContextId with hexp | ⟨d, hd, hv⟩
        · cases hstale : sess.items.find? (fun it => it.id == itemId) with
          | none => exact ⟨sess, rfl, hexp, hstale⟩
          | some target =>
              obtain ⟨c'', restItems, heq, -, -, -, -⟩ :=
                removeItem_sf_expired_found hsess hsid hexp hstale
              rw [heq] at h
              simp [isExpiredSurface] at h
        · cases hfind : d.items.find? (fun it => it.id == itemId) with
          | none =>
              rw [removeItem_sf_valid_missing hsess hsid hd hv hfind] at h
              simp [isExpiredSurface] at h
          | some x =>
              rw [removeItem_sf_valid_found hsess hsid hd hv (by rw [hfind]; rfl)] at h
              simp [isExpiredSurface] at h
  · rintro ⟨sess, hsess, hexp, hstale⟩
    have hsid := hwf sid sess hsess
    obtain ⟨c', newItems, heq, -, -, -, -⟩ :=
      removeItem_sf_expired_stale hsess hsid hexp hstale
    rw [heq]; rfl
  · intro h
    cases hsess : alistGet s.sessions sid with
    | none =>
        rw [updateItem_notFound sfClient now sid itemId q s hsess] at h
        simp [isExpiredSurface] at h
    | some sess =>
        have hsid := hwf sid sess hsess
        rcases getValidContext_split now s.client sess.sfContextId with hexp | ⟨d, hd, hv⟩
        · cases hstale : sess.items.find? (fun it => it.id == itemId) with
          | none => exact ⟨sess, rfl, hexp, hstale⟩
          | some target =>
              obtain ⟨c'', updItems, heq, -, -, -, -⟩ :=
                updateItem_sf_expired_found q hsess hsid hexp hstale
              rw [heq] at h
              simp [isExpiredSurface] at h
        · cases hfind : d.items.find? (fun it => it.id == itemId) with
          | none =>
              rw [updateItem_sf_valid_missing q hsess hsid hd hv hfind] at h
              simp [isExpiredSurface] at h
          | some x =>
              rw [updateItem_sf_valid_found q hsess hsid hd hv (by rw [hfind]; rfl)] at h
              simp [isExpiredSurface] at h
  · rintro ⟨sess, hsess, hexp, hstale⟩
    have hsid := hwf sid sess hsess
    obtain ⟨c', newItems, heq, -, -, -, -⟩ :=
      updateItem_sf_expired_stale q hsess hsid hexp hstale
    rw [heq]; rfl

/-- C5 (witness): the absorption theorem instantiated after the trace
create-then-expire — `getCart` on the expired session does not surface an
expired-context error. -/
theorem expired_absorption_witness :
    isExpiredSurface (CartService.getCart sfClient 0 0
      (runTrace 0 [TraceOp.createCart, TraceOp.expire 0] initState)).1 = false :=
  (expired_absorption_bounded_retry 0 0 99 3 ⟨1, 1, 100, 1⟩
    (runTrace 0 [TraceOp.createCart, TraceOp.expire 0] initState)
    (runInv_runTrace 0 [TraceOp.createCart, TraceOp.expire 0] initState
      (runInv_init 0)).sid_eq).1

/-- C6 (confirmed): every successful mutating provider call (`addItem`,
`removeItem`, `updateItem`) returns the full current cart of the named
context — the cart's items are exactly the context's stored item list after
the call and the total is `Σ price × quantity` over them — and, at the
coordinator level, every cart an operation returns to the caller has
`total = Σ price × quantity` over both its own items and the session's
authoritative items as stored after the operation. -/
theorem total_correctness (now : Int) :
    (∀ (ctxId : Nat) (input : CartItemInput) (c c' : SfState) (cart : Cart),
      SalesforceCartClient.addItem now ctxId input c = (.ok cart, c') →
      cart.total = SalesforceCartClient.cartTotal cart.items ∧
      ∃ d', alistGet c'.contexts ctxId = some d' ∧ cart.items = d'.items) ∧
    (∀ (ctxId itemId : Nat) (c c' : SfState) (cart : Cart),
      SalesforceCartClient.removeItem now ctxId itemId c = (.ok cart, c') →
      cart.total = SalesforceCartClient.cartTotal cart.items ∧
      ∃ d', alistGet c'.contexts ctxId = some d' ∧ cart.items = d'.items) ∧
    (∀ (ctxId itemId q : Nat) (c c' : SfState) (cart : Cart),
      SalesforceCartClient.updateItem now ctxId itemId q c = (.ok cart, c') →
      cart.total = SalesforceCartClient.cartTotal cart.items ∧
      ∃ d', alistGet c'.contexts ctxId = some d' ∧ cart.items = d'.items) ∧
    (∀ (ops : List TraceOp) (op : TraceOp) (cart : Cart),
      (runOp now op (runTrace now ops initState)).1 = some (.ok cart) →
      cart.total = SalesforceCartClient.cartTotal cart.items ∧
      ∃ sess, alistGet (runOp now op (runTrace now ops initState)).2.sessions
          (opSessionId op (runTrace now ops initState)) = some sess ∧
        cart.total = SalesforceCartClient.cartTotal sess.items) := by
  refine ⟨?_, ?_, ?_, ?_⟩
  · intro ctxId input c c' cart heq
    rcases getValidContext_split now c ctxId with hexp | ⟨d, hd, hv⟩
    · rw [addItem_sf_expired_client input hexp] at heq
      exact absurd (congrArg Prod.fst heq) (by simp)
    · rw [addItem_sf_ok hd hv input] at heq
      simp only [Prod.mk.injEq, Except.ok.injEq] at heq
      obtain ⟨hcart, hstate⟩ := heq
      subst hcart
      subst hstate
      exact ⟨rfl, _, alistGet_set_self _ _ _, rfl⟩
  · intro ctxId itemId c c' cart heq
    rcases getValidContext_split now c ctxId with hexp | ⟨d, hd, hv⟩
    · rw [removeItem_sf_expired_client itemId hexp] at heq
      exact absurd (congrArg Prod.fst heq) (by simp)
    · cases hfind : d.items.find? (fun it => it.id == itemId) with
      | none =>
          rw [removeItem_sf_missing hd hv hfind] at heq
          exact absurd (congrArg Prod.fst heq) (by simp)
      | some x =>
          rw [removeItem_sf_ok hd hv (by rw [hfind]; rfl)] at heq
          simp only [Prod.mk.injEq, Except.ok.injEq] at heq
          obtain ⟨hcart, hstate⟩ := heq
          subst hcart
          subst hstate
          exact ⟨rfl, _, alistGet_set_self _ _ _, rfl⟩
  · intro ctxId itemId q c c' cart heq
    rcases getValidContext_split now c ctxId with hexp | ⟨d, hd, hv⟩
    · rw [updateItem_sf_expired_client itemId q hexp] at heq
      exact absurd (congrArg Prod.fst heq) (by simp)
    · cases hfind : d.items.find? (fun it => it.id == itemId) with
      | none =>
          rw [updateItem_sf_missing q hd hv hfind] at heq
          exact absurd (congrArg Prod.fst heq) (by simp)
      | some x =>
          rw [updateItem_sf_ok q hd hv (by rw [hfind]; rfl)] at heq
          simp only [Prod.mk.injEq, Except.ok.injEq] at heq
          obtain ⟨hcart, hstate⟩ := heq
          subst hcart
          subst hstate
          exact ⟨rfl, _, alistGet_set_self _ _ _, rfl⟩
  · intro ops op cart h
    exact (runOp_preserves now op (runTrace now ops initState)
      (runInv_runTrace now ops initState (runInv_init now))).2 cart h

/-- C6 (witness): the trace-level clause instantiated — after `createCart`,
`addItem` returns the cart with total `100 = 100 × 1`, equal to the sum over
the stored authoritative items. -/
theorem total_correctness_witness :
    (runOp 0 (TraceOp.addItem 0 ⟨1, 1, 100, 1⟩) (runTrace 0 [TraceOp.createCart] initState)).1 =
      some (.ok { id := .ofContext 0, items := [⟨1, 1, 1, 100, 1⟩], total := 100 }) ∧
    (({ id := .ofContext 0, items := [⟨1, 1, 1, 100, 1⟩], total := 100 } : Cart).total =
      SalesforceCartClient.cartTotal
        ({ id := .ofContext 0, items := [⟨1, 1, 1, 100, 1⟩], total := 100 } : Cart).items ∧
    ∃ sess, alistGet (runOp 0 (TraceOp.addItem 0 ⟨1, 1, 100, 1⟩)
          (runTrace 0 [TraceOp.createCart] initState)).2.sessions
        (opSessionId (TraceOp.addItem 0 ⟨1, 1, 100, 1⟩)
          (runTrace 0 [TraceOp.createCart] initState)) = some sess ∧
      ({ id := .ofContext 0, items := [⟨1, 1, 1, 100, 1⟩], total := 100 } : Cart).total =
        SalesforceCartClient.cartTotal sess.items) :=
  ⟨by decide,
   (total_correctness 0).2.2.2 [TraceOp.createCart] (TraceOp.addItem 0 ⟨1, 1, 100, 1⟩)
     { id := .ofContext 0, items := [⟨1, 1, 1, 100, 1⟩], total := 100 } (by decide)⟩

/-- C8 (counterexample): `getCart` does NOT re-synchronize `Session.items`
with the provider's returned item list — after a recovery triggered by
`getCart`, the returned cart carries the replayed item (fresh id 2) while the
stored session still holds the stale pre-recovery item (id 1). -/
theorem sync_cex :
    (CartService.getCart sfClient 0 0
      (runTrace 0 [TraceOp.createCart, TraceOp.addItem 0 ⟨1, 1, 100, 1⟩, TraceOp.expire 0]
        initState)).1 =
      .ok { id := .ofContext 1, items := [⟨2, 1, 1, 100, 1⟩], total := 100 } ∧
    alistGet (CartService.getCart sfClient 0 0
      (runTrace 0 [TraceOp.createCart, TraceOp.addItem 0 ⟨1, 1, 100, 1⟩, TraceOp.expire 0]
        initState)).2.sessions 0 =
      some { sessionId := 0, sfContextId := 1, items := [⟨1, 1, 1, 100, 1⟩],
             createdAt := 0, lastAccessed := 0 } ∧
    ([⟨2, 1, 1, 100, 1⟩] : List CartItem) ≠ [⟨1, 1, 1, 100, 1⟩] := by
  decide

/-- C8 (amended): `addItem`, `removeItem` and `updateItem` do write the
provider's returned item list back into `Session.items` on success, but
`getCart` does not — it returns the provider's cart while leaving
`Session.items` exactly as it was. -/
theorem sync_on_success (now : Int) (sid itemId q : Nat) (input : CartItemInput)
    (s : SysState)
    (hwf : ∀ sid' sess', alistGet s.sessions sid' = some sess' → sess'.sessionId = sid') :
    (∀ cart s', CartService.addItem sfClient now sid input s = (.ok cart, s') →
      ∃ sess, alistGet s'.sessions sid = some sess ∧ sess.items = cart.items) ∧
    (∀ cart s', CartService.removeItem sfClient now sid itemId s = (.ok cart, s') →
      ∃ sess, alistGet s'.sessions sid = some sess ∧ sess.items = cart.items) ∧
    (∀ cart s', CartService.updateItem sfClient now sid itemId q s = (.ok cart, s') →
      ∃ sess, alistGet s'.sessions sid = some sess ∧ sess.items = cart.items) ∧
    (∀ cart s', CartService.getCart sfClient now sid s = (.ok cart, s') →
      ∃ sess sess', alistGet s.sessions sid = some sess ∧
        alistGet s'.sessions sid = some sess' ∧ sess'.items = sess.items) := by
  refine ⟨?_, ?_, ?_, ?_⟩
  · intro cart s' heq
    cases hsess : alistGet s.sessions sid with
    | none =>
        rw [addItem_notFound sfClient now sid input s hsess] at heq
        exact absurd (congrArg Prod.fst heq) (by simp)
    | some sess =>
        have hsid := hwf sid sess hsess
        rcases getValidContext_split now s.client sess.sfContextId with hexp | ⟨d, hd, hv⟩
        · obtain ⟨c'', fullItems, heq', -, -, -, -⟩ := addItem_sf_expired input hsess hsid hexp
          rw [heq'] at heq
          simp only [Prod.mk.injEq, Except.ok.injEq] at heq
          obtain ⟨hcart, hstate⟩ := heq
          subst hcart
          subst hstate
          exact ⟨_, alistGet_set_self _ _ _, rfl⟩
        · rw [addItem_sf_valid input hsess hsid hd hv] at heq
          simp only [Prod.mk.injEq, Except.ok.injEq] at heq
          obtain ⟨hcart, hstate⟩ := heq
          subst hcart
          subst hstate
          exact ⟨_, alistGet_set_self _ _ _, rfl⟩
  · intro cart s' heq
    cases hsess : alistGet s.sessions sid with
    | none =>
        rw [removeItem_notFound sfClient now sid itemId s hsess] at heq
        exact absurd (congrArg Prod.fst heq) (by simp)
    | some sess =>
        have hsid := hwf sid sess hsess
        rcases getValidContext_split now s.client sess.sfContextId with hexp | ⟨d, hd, hv⟩
        · cases hstale : sess.items.find? (fun it => it.id == itemId) with
          | none =>
              obtain ⟨c', newItems, heq', -, -, -, -⟩ :=
                removeItem_sf_expired_stale hsess hsid hexp hstale
              rw [heq'] at heq
              exact absurd (congrArg Prod.fst heq) (by simp)
          | some target =>
              obtain ⟨c'', restItems, heq', -, -, -, -⟩ :=
                removeItem_sf_expired_found hsess hsid hexp hstale
              rw [heq'] at heq
              simp only [Prod.mk.injEq, Except.ok.injEq] at heq
              obtain ⟨hcart, hstate⟩ := heq
              subst hcart
              subst hstate
              exact ⟨_, alistGet_set_self _ _ _, rfl⟩
        · cases hfind : d.items.find? (fun it => it.id == itemId) with
          | none =>
              rw [removeItem_sf_valid_missing hsess hsid hd hv hfind] at heq
              exact absurd (congrArg Prod.fst heq) (by simp)
          | some x =>
              rw [removeItem_sf_valid_found hsess hsid hd hv (by rw [hfind]; rfl)] at heq
              simp only [Prod.mk.injEq, Except.ok.injEq] at heq
              obtain ⟨hcart, hstate⟩ := heq
              subst hcart
              subst hstate
              exact ⟨_, alistGet_set_self _ _ _, rfl⟩
  · intro cart s' heq
    cases hsess : alistGet s.sessions sid with
    | none =>
        rw [updateItem_notFound sfClient now sid itemId q s hsess] at heq
        exact absurd (congrArg Prod.fst heq) (by simp)
    | some sess =>
        have hsid := hwf sid sess hsess
        rcases getValidContext_split now s.client sess.sfContextId with hexp | ⟨d, hd, hv⟩
        · cases hstale : sess.items.find? (fun it => it.id == itemId) with
          | none =>
              obtain ⟨c', newItems, heq', -, -, -, -⟩ :=
                updateItem_sf_expired_stale q hsess hsid hexp hstale
              rw [heq'] at heq
              exact absurd (congrArg Prod.fst heq) (by simp)
          | some target =>
              obtain ⟨c'', updItems, heq', -, -, -, -⟩ :=
                updateItem_sf_expired_found q hsess hsid hexp hstale
              rw [heq'] at heq
              simp only [Prod.mk.injEq, Except.ok.injEq] at heq
              obtain ⟨hcart, hstate⟩ := heq
              subst hcart
              subst hstate
              exact ⟨_, alistGet_set_self _ _ _, rfl⟩
        · cases hfind : d.items.find? (fun it => it.id == itemId) with
          | none =>
              rw [updateItem_sf_valid_missing q hsess hsid hd hv hfind] at heq
              exact absurd (congrArg Prod.fst heq) (by simp)
          | some x =>
              rw [updateItem_sf_valid_found q hsess hsid hd hv (by rw [hfind]; rfl)] at heq
              simp only [Prod.mk.injEq, Except.ok.injEq] at heq
              obtain ⟨hcart, hstate⟩ := heq
              subst hcart
              subst hstate
              exact ⟨_, alistGet_set_self _ _ _, rfl⟩
  · intro cart s' heq
    cases hsess : alistGet s.sessions sid with
    | none =>
        rw [getCart_notFound sfClient now sid s hsess] at heq
        exact absurd (congrArg Prod.fst heq) (by simp)
    | some sess =>
        have hsid := hwf sid sess hsess
        rcases getValidContext_split now s.client sess.sfContextId with hexp | ⟨d, hd, hv⟩
        · obtain ⟨c', newItems, heq', -, -, -, -, -, -⟩ := getCart_sf_expired hsess hsid hexp
          rw [heq'] at heq
          simp only [Prod.mk.injEq, Except.ok.injEq] at heq
          obtain ⟨hcart, hstate⟩ := heq
          subst hcart
          subst hstate
          exact ⟨sess, _, rfl, alistGet_set_self _ _ _, rfl⟩
        · rw [getCart_sf_valid hsess hsid hd hv] at heq
          simp only [Prod.mk.injEq, Except.ok.injEq] at heq
          obtain ⟨hcart, hstate⟩ := heq
          subst hcart
          subst hstate
          exact ⟨sess, _, rfl, alistGet_set_self _ _ _, rfl⟩

/-- C8 (witness): after `createCart`, a successful `addItem` leaves the
session's authoritative items equal to the returned cart's items. -/
theorem sync_witness :
    ∃ sess, alistGet (CartService.addItem sfClient 0 0 ⟨1, 1, 100, 1⟩
        (runTrace 0 [TraceOp.createCart] initState)).2.sessions 0 = some sess ∧
      sess.items =
        ({ id := .ofContext 0, items := [⟨1, 1, 1, 100, 1⟩], total := 100 } : Cart).items :=
  (sync_on_success 0 0 99 3 ⟨1, 1, 100, 1⟩ (runTrace 0 [TraceOp.createCart] initState)
    (runInv_runTrace 0 [TraceOp.createCart] initState (runInv_init 0)).sid_eq).1
    { id := .ofContext 0, items := [⟨1, 1, 1, 100, 1⟩], total := 100 }
    (CartService.addItem sfClient 0 0 ⟨1, 1, 100, 1⟩
      (runTrace 0 [TraceOp.createCart] initState)).2
    (by decide)

/-- C9 (confirmed): `createCart` returns a cart whose id is derived from the
session id, while every provider-built cart returned by a successful
`getCart`, `addItem`, `removeItem` or `updateItem` carries an id derived from
the session's CURRENT context id; the two id families are disjoint, and
whenever one of these four operations succeeds through a recovery the
returned cart's id differs from the id derived from the pre-recovery
context. -/
theorem cart_id_instability (now : Int) (sid itemId q : Nat) (input : CartItemInput)
    (s : SysState) (h : RunInv now s) :
    (∀ (sid2 : Nat) (cart : Cart) (s' : SysState),
      CartService.createCart sfClient now s = (.ok (sid2, cart), s') →
      cart.id = .ofSession sid2) ∧
    (∀ (cart : Cart) (s' : SysState),
      CartService.getCart sfClient now sid s = (.ok cart, s') →
      ∃ sess, alistGet s'.sessions sid = some sess ∧
        cart.id = .ofContext sess.sfContextId) ∧
    (∀ (cart : Cart) (s' : SysState),
      CartService.addItem sfClient now sid input s = (.ok cart, s') →
      ∃ sess, alistGet s'.sessions sid = some sess ∧
        cart.id = .ofContext sess.sfContextId) ∧
    (∀ (cart : Cart) (s' : SysState),
      CartService.removeItem sfClient now sid itemId s = (.ok cart, s') →
      ∃ sess, alistGet s'.sessions sid = some sess ∧
        cart.id = .ofContext sess.sfContextId) ∧
    (∀ (cart : Cart) (s' : SysState),
      CartService.updateItem sfClient now sid itemId q s = (.ok cart, s') →
      ∃ sess, alistGet s'.sessions sid = some sess ∧
        cart.id = .ofContext sess.sfContextId) ∧
    (∀ n m : Nat, CartId.ofSession n ≠ CartId.ofContext m) ∧
    (∀ sess, alistGet s.sessions sid = some sess →
      SalesforceCartClient.getValidContext now s.client sess.sfContextId = none →
      (∀ (cart : Cart) (s' : SysState),
        CartService.getCart sfClient now sid s = (.ok cart, s') →
        cart.id ≠ .ofContext sess.sfContextId) ∧
      (∀ (cart : Cart) (s' : SysState),
        CartService.addItem sfClient now sid input s = (.ok cart, s') →
        cart.id ≠ .ofContext sess.sfContextId) ∧
      (∀ (cart : Cart) (s' : SysState),
        CartService.removeItem sfClient now sid itemId s = (.ok cart, s') →
        cart.id ≠ .ofContext sess.sfContextId) ∧
      (∀ (cart : Cart) (s' : SysState),
        CartService.updateItem sfClient now sid itemId q s = (.ok cart, s') →
        cart.id ≠ .ofContext sess.sfContextId)) := by
  refine ⟨?_, ?_, ?_, ?_, ?_, ?_, ?_⟩
  · intro sid2 cart s' heq
    rw [createCart_sf] at heq
    simp only [Prod.mk.injEq, Except.ok.injEq] at heq
    obtain ⟨⟨hsid2, hcart⟩, hstate⟩ := heq
    rw [← hcart, ← hsid2]
  · intro cart s' heq
    cases hsess : alistGet s.sessions sid with
    | none =>
        rw [getCart_notFound sfClient now sid s hsess] at heq
        exact absurd (congrArg Prod.fst heq) (by simp)
    | some sess =>
        have hsid := h.sid_eq sid sess hsess
        rcases getValidContext_split now s.client sess.sfContextId with hexp | ⟨d, hd, hv⟩
        · obtain ⟨c', newItems, heq', -, -, -, -, -, -⟩ := getCart_sf_expired hsess hsid hexp
          rw [heq'] at heq
          simp only [Prod.mk.injEq, Except.ok.injEq] at heq
          obtain ⟨hcart, hstate⟩ := heq
          subst hcart
          subst hstate
          exact ⟨_, alistGet_set_self _ _ _, rfl⟩
        · rw [getCart_sf_valid hsess hsid hd hv] at heq
          simp only [Prod.mk.injEq, Except.ok.injEq] at heq
          obtain ⟨hcart, hstate⟩ := heq
          subst hcart
          subst hstate
          refine ⟨_, alistGet_set_self _ _ _, ?_⟩
          simp [SalesforceCartClient.buildCart, h.ctx_id sess.sfContextId d hd]
  · intro cart s' heq
    cases hsess : alistGet s.sessions sid with
    | none =>
        rw [addItem_notFound sfClient now sid input s hsess] at heq
        exact absurd (congrArg Prod.fst heq) (by simp)
    | some sess =>
        have hsid := h.sid_eq sid sess hsess
        rcases getValidContext_split now s.client sess.sfContextId with hexp | ⟨d, hd, hv⟩
        · obtain ⟨c'', fullItems, heq', -, -, -, -⟩ := addItem_sf_expired input hsess hsid hexp
          rw [heq'] at heq
          simp only [Prod.mk.injEq, Except.ok.injEq] at heq
          obtain ⟨hcart, hstate⟩ := heq
          subst hcart
          subst hstate
          exact ⟨_, alistGet_set_self _ _ _, rfl⟩
        · rw [addItem_sf_valid input hsess hsid hd hv] at heq
          simp only [Prod.mk.injEq, Except.ok.injEq] at heq
          obtain ⟨hcart, hstate⟩ := heq
          subst hcart
          subst hstate
          refine ⟨_, alistGet_set_self _ _ _, ?_⟩
          simp [SalesforceCartClient.buildCart, h.ctx_id sess.sfContextId d hd]
  · intro cart s' heq
    cases hsess : alistGet s.sessions sid with
    | none =>
        rw [removeItem_notFound sfClient now sid itemId s hsess] at heq
        exact absurd (congrArg Prod.fst heq) (by simp)
    | some sess =>
        have hsid := h.sid_eq sid sess hsess
        rcases getValidContext_split now s.client sess.sfContextId with hexp | ⟨d, hd, hv⟩
        · cases hstale : sess.items.find? (fun it => it.id == itemId) with
          | none =>
              obtain ⟨c', newItems, heq', -, -, -, -⟩ :=
                removeItem_sf_expired_stale hsess hsid hexp hstale
              rw [heq'] at heq
              exact absurd (congrArg Prod.fst heq) (by simp)
          | some target =>
              obtain ⟨c'', restItems, heq', -, -, -, -⟩ :=
                removeItem_sf_expired_found hsess hsid hexp hstale
              rw [heq'] at heq
              simp only [Prod.mk.injEq, Except.ok.injEq] at heq
              obtain ⟨hcart, hstate⟩ := heq
              subst hcart
              subst hstate
              exact ⟨_, alistGet_set_self _ _ _, rfl⟩
        · cases hfind : d.items.find? (fun it => it.id == itemId) with
          | none =>
              rw [removeItem_sf_valid_missing hsess hsid hd hv hfind] at heq
              exact absurd (congrArg Prod.fst heq) (by simp)
          | some x =>
              rw [removeItem_sf_valid_found hsess hsid hd hv (by rw [hfind]; rfl)] at heq
              simp only [Prod.mk.injEq, Except.ok.injEq] at heq
              obtain ⟨hcart, hstate⟩ := heq
              subst hcart
              subst hstate
              refine ⟨_, alistGet_set_self _ _ _, ?_⟩
              simp [SalesforceCartClient.buildCart, h.ctx_id sess.sfContextId d hd]
  · intro cart s' heq
    cases hsess : alistGet s.sessions sid with
    | none =>
        rw [updateItem_notFound sfClient now sid itemId q s hsess] at heq
        exact absurd (congrArg Prod.fst heq) (by simp)
    | some sess =>
        have hsid := h.sid_eq sid sess hsess
        rcases getValidContext_split now s.client sess.sfContextId with hexp | ⟨d, hd, hv⟩
        · cases hstale : sess.items.find? (fun it => it.id == itemId) with
          | none =>
              obtain ⟨c', newItems, heq', -, -, -, -⟩ :=
                updateItem_sf_expired_stale q hsess hsid hexp hstale
              rw [heq'] at heq
              exact absurd (congrArg Prod.fst heq) (by simp)
          | some target =>
              obtain ⟨c'', updItems, heq', -, -, -, -⟩ :=
                updateItem_sf_expired_found q hsess hsid hexp hstale
              rw [heq'] at heq
              simp only [Prod.mk.injEq, Except.ok.injEq] at heq
              obtain ⟨hcart, hstate⟩ := heq
              subst hcart
              subst hstate
              exact ⟨_, alistGet_set_self _ _ _, rfl⟩
        · cases hfind : d.items.find? (fun it => it.id == itemId) with
          | none =>
              rw [updateItem_sf_valid_missing q hsess hsid hd hv hfind] at heq
              exact absurd (congrArg Prod.fst heq) (by simp)
          | some x =>
              rw [updateItem_sf_valid_found q hsess hsid hd hv (by rw [hfind]; rfl)] at heq
              simp only [Prod.mk.injEq, Except.ok.injEq] at heq
              obtain ⟨hcart, hstate⟩ := heq
              subst hcart
              subst hstate
              refine ⟨_, alistGet_set_self _ _ _, ?_⟩
              simp [SalesforceCartClient.buildCart, h.ctx_id sess.sfContextId d hd]
  · intro n m hne
    cases hne
  · intro sess hsess hexp
    have hsid := h.sid_eq sid sess hsess
    have hfresh := h.fresh sid sess hsess
    refine ⟨?_, ?_, ?_, ?_⟩
    · intro cart s' heq
      obtain ⟨c', newItems, heq', -, -, -, -, -, -⟩ := getCart_sf_expired hsess hsid hexp
      rw [heq'] at heq
      simp only [Prod.mk.injEq, Except.ok.injEq] at heq
      obtain ⟨hcart, hstate⟩ := heq
      subst hcart
      intro habs
      simp only [CartId.ofContext.injEq] at habs
      omega
    · intro cart s' heq
      obtain ⟨c'', fullItems, heq', -, -, -, -⟩ := addItem_sf_expired input hsess hsid hexp
      rw [heq'] at heq
      simp only [Prod.mk.injEq, Except.ok.injEq] at heq
      obtain ⟨hcart, hstate⟩ := heq
      subst hcart
      intro habs
      simp only [CartId.ofContext.injEq] at habs
      omega
    · intro cart s' heq
      cases hstale : sess.items.find? (fun it => it.id == itemId) with
      | none =>
          obtain ⟨c', newItems, heq', -, -, -, -⟩ :=
            removeItem_sf_expired_stale hsess hsid hexp hstale
          rw [heq'] at heq
          exact absurd (congrArg Prod.fst heq) (by simp)
      | some target =>
          obtain ⟨c'', restItems, heq', -, -, -, -⟩ :=
            removeItem_sf_expired_found hsess hsid hexp hstale
          rw [heq'] at heq
          simp only [Prod.mk.injEq, Except.ok.injEq] at heq
          obtain ⟨hcart, hstate⟩ := heq
          subst hcart
          intro habs
          simp only [CartId.ofContext.injEq] at habs
          omega
    · intro cart s' heq
      cases hstale : sess.items.find? (fun it => it.id == itemId) with
      | none =>
          obtain ⟨c', newItems, heq', -, -, -, -⟩ :=
            updateItem_sf_expired_stale q hsess hsid hexp hstale
          rw [heq'] at heq
          exact absurd (congrArg Prod.fst heq) (by simp)
      | some target =>
          obtain ⟨c'', updItems, heq', -, -, -, -⟩ :=
            updateItem_sf_expired_found q hsess hsid hexp hstale
          rw [heq'] at heq
          simp only [Prod.mk.injEq, Except.ok.injEq] at heq
          obtain ⟨hcart, hstate⟩ := heq
          subst hcart
          intro habs
          simp only [CartId.ofContext.injEq] at habs
          omega

/-- C9 (witness): on a freshly created session, `getCart` returns the cart
whose id names the session's current context. -/
theorem cart_id_witness :
    ∃ sess, alistGet (CartService.getCart sfClient 0 0
        (runTrace 0 [TraceOp.createCart] initState)).2.sessions 0 = some sess ∧
      ({ id := .ofContext 0, items := [], total := 0 } : Cart).id =
        .ofContext sess.sfContextId :=
  (cart_id_instability 0 0 99 3 ⟨1, 1, 100, 1⟩ (runTrace 0 [TraceOp.createCart] initState)
    (runInv_runTrace 0 [TraceOp.createCart] initState (runInv_init 0))).2.1
    { id := .ofContext 0, items := [], total := 0 }
    (CartService.getCart sfClient 0 0 (runTrace 0 [TraceOp.createCart] initState)).2
    (by decide)

/-- C10 (confirmed): with the real provider, the
`ContextRecoveryFailedError` thrown by `removeItem`/`updateItem` when no item
with the matching productId is found in the recovered cart is unreachable —
neither operation ever returns a recovery-failed error from a reachable
state, because recovery replays exactly the authoritative items, so every
productId present in `Session.items` appears in the new context's cart. -/
theorem post_recovery_not_found_unreachable (now : Int) (sid itemId q : Nat)
    (s : SysState) (h : RunInv now s) :
    isRecoveryFailed (CartService.removeItem sfClient now sid itemId s).1 = false ∧
    isRecoveryFailed (CartService.updateItem sfClient now sid itemId q s).1 = false ∧
    (∀ (sess : SessionCart) (c : SfState),
      ∃ (c' : SfState) (newItems : List CartItem),
        CartService.recoverContext sfClient now sess c =
          (.ok { sess with sfContextId := c.nextContextId }, c') ∧
        alistGet c'.contexts c.nextContextId =
          some { context := { id := c.nextContextId,
                              expiresAt := now + SalesforceCartClient.CONTEXT_EXPIRY_MS }
                 items := newItems } ∧
        ∀ it ∈ sess.items, ∃ nit,
          newItems.find? (fun x => x.productId == it.productId) = some nit ∧
          nit.productId = it.productId) := by
  refine ⟨?_, ?_, ?_⟩
  · cases hsess : alistGet s.sessions sid with
    | none => rw [removeItem_notFound sfClient now sid itemId s hsess]; rfl
    | some sess =>
        have hsid := h.sid_eq sid sess hsess
        rcases getValidContext_split now s.client sess.sfContextId with hexp | ⟨d, hd, hv⟩
        · cases hstale : sess.items.find? (fun it => it.id == itemId) with
          | none =>
              obtain ⟨c', newItems, heq, -, -, -, -⟩ :=
                removeItem_sf_expired_stale hsess hsid hexp hstale
              rw [heq]; rfl
          | some target =>
              obtain ⟨c'', restItems, heq, -, -, -, -⟩ :=
                removeItem_sf_expired_found hsess hsid hexp hstale
              rw [heq]; rfl
        · cases hfind : d.items.find? (fun it => it.id == itemId) with
          | none => rw [removeItem_sf_valid_missing hsess hsid hd hv hfind]; rfl
          | some x => rw [removeItem_sf_valid_found hsess hsid hd hv (by rw [hfind]; rfl)]; rfl
  · cases hsess : alistGet s.sessions sid with
    | none => rw [updateItem_notFound sfClient now sid itemId q s hsess]; rfl
    | some sess =>
        have hsid := h.sid_eq sid sess hsess
        rcases getValidContext_split now s.client sess.sfContextId with hexp | ⟨d, hd, hv⟩
        · cases hstale : sess.items.find? (fun it => it.id == itemId) with
          | none =>
              obtain ⟨c', newItems, heq, -, -, -, -⟩ :=
                updateItem_sf_expired_stale q hsess hsid hexp hstale
              rw [heq]; rfl
          | some target =>
              obtain ⟨c'', updItems, heq, -, -, -, -⟩ :=
                updateItem_sf_expired_found q hsess hsid hexp hstale
              rw [heq]; rfl
        · cases hfind : d.items.find? (fun it => it.id == itemId) with
          | none => rw [updateItem_sf_valid_missing q hsess hsid hd hv hfind]; rfl
          | some x =>
              rw [updateItem_sf_valid_found q hsess hsid hd hv (by rw [hfind]; rfl)]; rfl
  · intro sess c
    obtain ⟨c', newItems, hrec, hget, hproj, hids, hframe, hnext, hcount⟩ :=
      recoverContext_sf now sess c
    refine ⟨c', newItems, hrec, hget, ?_⟩
    intro it hmem
    exact exists_matching_productId hproj hmem

/-- C10 (witness): `removeItem` of a present stale id after an induced expiry
goes through recovery and succeeds — no recovery-failed error surfaces. -/
theorem post_recovery_witness :
    isRecoveryFailed (CartService.removeItem sfClient 0 0 1
      (runTrace 0 [TraceOp.createCart, TraceOp.addItem 0 ⟨1, 1, 100, 1⟩, TraceOp.expire 0]
        initState)).1 = false :=
  (post_recovery_not_found_unreachable 0 0 1 3
    (runTrace 0 [TraceOp.createCart, TraceOp.addItem 0 ⟨1, 1, 100, 1⟩, TraceOp.expire 0]
      initState)
    (runInv_runTrace 0
      [TraceOp.createCart, TraceOp.addItem 0 ⟨1, 1, 100, 1⟩, TraceOp.expire 0]
      initState (runInv_init 0))).1
